import Mathlib

/-!
Verification development for the loteria-parser repository (TypeScript).

The definitions below are a shallow embedding of the source files:
  src/preprocessor.ts        (Preprocessor)
  src/pattern-expander.ts    (PatternExpander, PATTERNS, APUESTA_PATTERNS)
  src/validators.ts          (Validator)
  src/parser.ts              (Parser, default plugins)
  src/plugins/base-plugin.ts (BasePlugin)
  src/utils/cache.ts         (CacheManager)

Strings are modelled as lists of characters; JavaScript numbers used for
monetary amounts are modelled as exact rationals (the source performs its
monetary accumulation through decimal.js, which is exact on these inputs),
with an explicit NaN marker where `parseFloat` can fail.  Regular-expression
driven rewrites from the source are modelled by hand-written scanners that
reproduce the leftmost-match / continue-after-match semantics of
`String.prototype.replace` with a global regex.
-/

abbrev Str := List Char

/-- JavaScript whitespace (the set matched by `\s` and removed by `trim`). -/
def isJsWhite (c : Char) : Bool :=
  let v := c.toNat
  v = 9 || v = 10 || v = 11 || v = 12 || v = 13 || v = 32 ||
  v = 160 || v = 0x1680 || (0x2000 ≤ v && v ≤ 0x200A) ||
  v = 0x2028 || v = 0x2029 || v = 0x202F || v = 0x205F || v = 0x3000 || v = 0xFEFF

/-- The space-like class used by Preprocessor.normalizeSpaces
(`[   -‏ -  　]`). -/
def isSpaceClass (c : Char) : Bool :=
  let v := c.toNat
  v = 32 || v = 160 || (0x2000 ≤ v && v ≤ 0x200F) ||
  (0x2028 ≤ v && v ≤ 0x202F) || v = 0x205F || v = 0x3000

/-- ASCII digit, the JavaScript `\d` class. -/
def isDigitC (c : Char) : Bool := '0' ≤ c && c ≤ '9'

/-- JavaScript word character (`\w`, used by `\b` boundaries). -/
def isWordC (c : Char) : Bool :=
  ('a' ≤ c && c ≤ 'z') || ('A' ≤ c && c ≤ 'Z') || isDigitC c || c = '_'

/-- Letter class `[A-Za-zÁ-ÿ]` used for the name-line letter ratio. -/
def isLetterClass (c : Char) : Bool :=
  ('a' ≤ c && c ≤ 'z') || ('A' ≤ c && c ≤ 'Z') ||
  (0xC1 ≤ c.toNat && c.toNat ≤ 0xFF)

/-- Lowercasing as performed by `toLowerCase` on the Latin-1 range. -/
def toLowerJs (c : Char) : Char :=
  if 'A' ≤ c && c ≤ 'Z' then Char.ofNat (c.toNat + 32)
  else if 0xC0 ≤ c.toNat && c.toNat ≤ 0xDE && c.toNat ≠ 0xD7 then
    Char.ofNat (c.toNat + 32)
  else c

/-- `String.prototype.trim`. -/
def trimJs (s : Str) : Str :=
  ((s.dropWhile isJsWhite).reverse.dropWhile isJsWhite).reverse

/-- Split on newline characters (`split('\n')`). -/
def splitNl (s : Str) : List Str := s.splitOn '\n'

/-- Join lines back with newline characters (`join('\n')`). -/
def joinNl (ls : List Str) : Str := (ls.intersperse ['\n']).flatten

/-- `padStart(2, '0')`. -/
def padStart2 (s : Str) : Str :=
  if s.length < 2 then List.replicate (2 - s.length) '0' ++ s else s

/-- Decimal digits of a natural number (`n.toString()`). -/
def natStr (n : ℕ) : Str := (Nat.repr n).toList

/-- `parseInt(s, 10)` on an all-digit string. -/
def parseIntNat (s : Str) : ℕ :=
  s.foldl (fun acc c => 10 * acc + (c.toNat - '0'.toNat)) 0

/-- A JavaScript number that is either NaN or an exact rational. -/
inductive JsNum where
  | nan : JsNum
  | num (q : ℚ) : JsNum
deriving DecidableEq, Repr

/-- Value of an all-digit string as a rational. -/
def digitsVal (s : Str) : ℚ := (parseIntNat s : ℚ)

/-- `parseFloat` restricted to the character material reachable in the
source (digit/dot strings without sign or exponent, as produced by the
regex capture groups after `replace(',', '.')`). -/
def parseFloatJs (s : Str) : JsNum :=
  let s := s.dropWhile isJsWhite
  let intPart := s.takeWhile isDigitC
  let rest := s.dropWhile isDigitC
  match rest with
  | '.' :: rest2 =>
      let fracPart := rest2.takeWhile isDigitC
      if intPart.isEmpty && fracPart.isEmpty then JsNum.nan
      else JsNum.num (digitsVal intPart +
        (parseIntNat fracPart : ℚ) / ((10 : ℚ) ^ fracPart.length))
  | _ =>
      if intPart.isEmpty then JsNum.nan else JsNum.num (digitsVal intPart)

/-- `s.replace(',', '.')` — JavaScript replaces only the first occurrence
when given a plain string pattern. -/
def replaceFirstComma : Str → Str
  | [] => []
  | c :: cs => if c = ',' then '.' :: cs else c :: replaceFirstComma cs

/-- Case-insensitive match of a literal (lower-case) word at the head of a
string; returns the rest on success. -/
def matchLitCI : Str → Str → Option Str
  | [], s => some s
  | _, [] => none
  | w :: ws, c :: cs => if toLowerJs c = w then matchLitCI ws cs else none

/-- Case-sensitive literal match at the head of a string. -/
def matchLit : Str → Str → Option Str
  | [], s => some s
  | _, [] => none
  | w :: ws, c :: cs => if c = w then matchLit ws cs else none

/-- Substring containment (`String.prototype.includes`). -/
def containsSub (pat : Str) (s : Str) : Bool :=
  match s with
  | [] => (matchLit pat []).isSome
  | _ :: cs => (matchLit pat s).isSome || containsSub pat cs

/-! ## A small engine for global regex replacement

`String.prototype.replace` with a global regex finds the leftmost match,
emits the replacement, and continues scanning right after the matched
slice; on failure it advances one character.  Word boundaries are decided
against the original text, so the scanner tracks the previously consumed
character.  Every matcher below consumes at least one character on
success, hence the fuel `s.length + 1` is never exhausted. -/

def replaceGo (m : Option Char → Str → Option (Str × ℕ)) :
    ℕ → Option Char → Str → Str
  | 0, _, s => s
  | fuel + 1, prev, s =>
    match s with
    | [] => []
    | c :: cs =>
      match m prev (c :: cs) with
      | some (rep, k) =>
          rep ++ replaceGo m fuel (((c :: cs).take k).getLast?) ((c :: cs).drop k)
      | none => c :: replaceGo m fuel (some c) cs

def replaceAll (m : Option Char → Str → Option (Str × ℕ)) (s : Str) : Str :=
  replaceGo m (s.length + 1) none s

/-- Existence of a match anywhere in the string (the `test` of a regex),
for matchers in the same interface. -/
def testGo (m : Option Char → Str → Option (Str × ℕ)) : Option Char → Str → Bool
  | _, [] => false
  | prev, c :: cs => (m prev (c :: cs)).isSome || testGo m (some c) cs

def testAny (m : Option Char → Str → Option (Str × ℕ)) (s : Str) : Bool :=
  testGo m none s

/-! ## Preprocessor.normalizeSpaces -/

def mCrlf : Option Char → Str → Option (Str × ℕ) := fun _ s =>
  match s with
  | '\r' :: '\n' :: _ => some (['\n'], 2)
  | _ => none

def mCr : Option Char → Str → Option (Str × ℕ) := fun _ s =>
  match s with
  | '\r' :: _ => some (['\n'], 1)
  | _ => none

def mNl3 : Option Char → Str → Option (Str × ℕ) := fun _ s =>
  let k := (s.takeWhile (· = '\n')).length
  if 3 ≤ k then some (['\n', '\n'], k) else none

def mTab : Option Char → Str → Option (Str × ℕ) := fun _ s =>
  match s with
  | '\t' :: _ => some ([' '], 1)
  | _ => none

def mSpaceRun : Option Char → Str → Option (Str × ℕ) := fun _ s =>
  let k := (s.takeWhile isSpaceClass).length
  if 1 ≤ k then some ([' '], k) else none

def isOpChar (c : Char) : Bool :=
  c = '*' || c = 'x' || c = '×' || c = '-' || c = '+' || c = '.'

/-- `\s*([*x×\-+.])\s*` → `$1`. -/
def mOpSpace : Option Char → Str → Option (Str × ℕ) := fun _ s =>
  let w1 := (s.takeWhile isJsWhite).length
  match s.drop w1 with
  | c :: rest =>
      if isOpChar c then
        some ([c], w1 + 1 + (rest.takeWhile isJsWhite).length)
      else none
  | [] => none

/-- `,(\S)` → `, $1`. -/
def mCommaSp : Option Char → Str → Option (Str × ℕ) := fun _ s =>
  match s with
  | ',' :: d :: _ => if isJsWhite d then none else some ([',', ' ', d], 2)
  | _ => none

def normalizeSpaces (s : Str) : Str :=
  let s1 := replaceAll mCrlf s
  let s2 := replaceAll mCr s1
  let s3 := replaceAll mNl3 s2
  let s4 := replaceAll mTab s3
  let s5 := replaceAll mSpaceRun s4
  let s6 := joinNl ((splitNl s5).map trimJs)
  let s7 := replaceAll mOpSpace s6
  replaceAll mCommaSp s7

/-! ## Preprocessor.normalizeSpecialCharacters -/

def isZeroConf (c : Char) : Bool :=
  c = 'o' || c = 'O' || c.toNat = 0xF8 || c.toNat = 0xD8 ||
  c.toNat = 0x3BF || c.toNat = 0x39F

def isOneConf (c : Char) : Bool := c = 'l' || c = 'I' || c = '|'

def isQuoteConf (c : Char) : Bool :=
  c.toNat = 0x27 || c = '"' || c.toNat = 0x60 || c.toNat = 0xB4

def mapConfusables (c : Char) : Char :=
  if isZeroConf c then '0'
  else if isOneConf c then '1'
  else if c.toNat = 0xD7 then 'x'
  else c

/-- Number of `[A-Za-zÁ-ÿ]` characters in a string. -/
def letterCount (s : Str) : ℕ := (s.filter isLetterClass).length

def headDigit (s : Str) : Bool :=
  match s with
  | c :: _ => isDigitC c
  | [] => false

def reservedWords : List Str :=
  ["con".toList, "parle".toList, "candado".toList, "total".toList,
   "fijo".toList, "corrido".toList, "al".toList, "pr".toList,
   "v".toList, "d".toList, "t".toList]

def reservedAt (s : Str) : Bool :=
  reservedWords.any fun w =>
    match matchLitCI w s with
    | some rest =>
        match rest with
        | [] => true
        | c :: _ => !isWordC c
    | none => false

def containsReservedGo : Bool → Str → Bool
  | _, [] => false
  | prevW, c :: cs =>
      (if prevW then false else reservedAt (c :: cs)) ||
      containsReservedGo (isWordC c) cs

/-- `\b(con|parle|candado|total|fijo|corrido|al|pr|v|d|t)\b/i` tested
against the whole string. -/
def containsReserved (t : Str) : Bool := containsReservedGo false t

/-- Preprocessor.isNombreJugador (ratio 0.7, lengths 2..35). -/
def preprocIsNombreJugador (line : Str) : Bool :=
  let t := trimJs line
  if t.length < 2 || 35 < t.length then false
  else if headDigit t then false
  else if containsReserved t then false
  else decide (((letterCount t : ℚ) / (t.length : ℚ)) > 7/10)

def normalizeSpecialCharacters (s : Str) : Str :=
  let s1 := (s.map mapConfusables).filter (fun c => !isQuoteConf c)
  joinNl ((splitNl s1).enum.map (fun p =>
    if p.1 = 0 && preprocIsNombreJugador p.2 then p.2 else p.2.map toLowerJs))

/-! ## Number extraction

`Preprocessor.extractNumbers` collects the matches of `\d{1,4}` (greedy,
leftmost, global) and turns them into canonical numbers: 2- and 3-digit
matches are kept, 4-digit matches are split into two 2-digit halves and
1-digit matches are dropped.  `BasePlugin.extractNumbers` does the same
with the word-bounded pattern `\b\d{1,4}\b`. -/

def matches14Go : ℕ → Str → List Str
  | 0, _ => []
  | _ + 1, [] => []
  | fuel + 1, c :: cs =>
    if isDigitC c then
      let m := ((c :: cs).takeWhile isDigitC).take 4
      m :: matches14Go fuel ((c :: cs).drop m.length)
    else matches14Go fuel cs

/-- The matches of `/\d{1,4}/g`. -/
def matches14 (s : Str) : List Str := matches14Go (s.length + 1) s

/-- Contribution of one match to the extracted numbers (the shared
`if/else` ladder of both extractors). -/
def numContrib (m : Str) : List Str :=
  if m.length = 2 then [m]
  else if m.length = 3 then [m]
  else if m.length = 4 then [m.take 2, m.drop 2]
  else []

/-- The claim's description of the per-token contribution: drop 1-digit
tokens, split 4-digit tokens into first two / last two, keep the rest.
Stated from the claim wording, to be compared with `numContrib`. -/
def claimNumContrib (t : Str) : List Str :=
  if t.length = 1 then []
  else if t.length = 4 then [t.take 2, t.drop 2]
  else [t]

/-- Preprocessor.extractNumbers. -/
def preprocExtractNumbers (s : Str) : List Str := (matches14 s).flatMap numContrib

/-- Validator.extractNumbers (pads every match to at least two digits). -/
def validatorExtractNumbers (s : Str) : List Str := (matches14 s).map padStart2

def matchesB14Go : ℕ → Bool → Str → List Str
  | 0, _, _ => []
  | _ + 1, _, [] => []
  | fuel + 1, prevW, c :: cs =>
    if isDigitC c then
      let run := (c :: cs).takeWhile isDigitC
      let rest := (c :: cs).drop run.length
      let ok := !prevW && run.length ≤ 4 &&
        (match rest with
         | [] => true
         | d :: _ => !isWordC d)
      (if ok then [run] else []) ++ matchesB14Go fuel true rest
    else matchesB14Go fuel (isWordC c) cs

/-- The matches of `/\b\d{1,4}\b/g`. -/
def matchesB14 (s : Str) : List Str := matchesB14Go (s.length + 1) false s

/-- BasePlugin.extractNumbers. -/
def baseExtractNumbers (s : Str) : List Str := (matchesB14 s).flatMap numContrib

/-- Matches of `/\d+(?:[.,]\d+)?/g` (used by the amount extractors). -/
def amountMatchesGo : ℕ → Str → List Str
  | 0, _ => []
  | _ + 1, [] => []
  | fuel + 1, c :: cs =>
    if isDigitC c then
      let intp := (c :: cs).takeWhile isDigitC
      let rest := (c :: cs).drop intp.length
      match rest with
      | sep :: rest2 =>
          if (sep = '.' || sep = ',') && headDigit rest2 then
            let frac := rest2.takeWhile isDigitC
            (intp ++ sep :: frac) :: amountMatchesGo fuel (rest2.drop frac.length)
          else intp :: amountMatchesGo fuel rest
      | [] => [intp]
    else amountMatchesGo fuel cs

def amountMatches (s : Str) : List Str := amountMatchesGo (s.length + 1) s

/-- Validator.extractAmounts / BasePlugin.extractAmounts: parse every
match (after `replace(',', '.')`), keeping the non-NaN values. -/
def extractAmountsAll (s : Str) : List ℚ :=
  (amountMatches s).foldr
    (fun m acc =>
      match parseFloatJs (replaceFirstComma m) with
      | JsNum.num q => q :: acc
      | JsNum.nan => acc) []

/-! ## Pattern expansion (Preprocessor.expandPatterns, PATTERNS of
pattern-expander.ts) -/

def joinSpace (ls : List Str) : Str := (ls.intersperse [' ']).flatten

def boundaryAfter (s : Str) : Bool :=
  match s with
  | [] => true
  | c :: _ => !isWordC c

/-- `VOLTEO: /(\d{2,4})\s*v\b/gi` — a 2–4 digit group works only when it
covers a whole digit run (a longer run blocks the trailing `v`), so the
matcher requires the run at the current position to have length 2–4. -/
def mVolteo : Option Char → Str → Option (Str × ℕ) := fun _ s =>
  let run := s.takeWhile isDigitC
  if 2 ≤ run.length && run.length ≤ 4 then
    let rest := s.drop run.length
    let w := (rest.takeWhile isJsWhite).length
    match rest.drop w with
    | c :: rest2 =>
        if toLowerJs c = 'v' && boundaryAfter rest2 then
          some (padStart2 run ++ ' ' :: (padStart2 run).reverse,
                run.length + w + 1)
        else none
    | [] => none
  else none

def rangoNums (inicio fin : ℕ) : List Str :=
  (List.range (fin + 1 - inicio)).map (fun i => padStart2 (natStr (inicio + i)))

/-- `RANGO: /(\d{1,2})\s*al\s*(\d{1,2})/gi`; when `inicio > fin` the source
returns the match unchanged. -/
def mRango : Option Char → Str → Option (Str × ℕ) := fun _ s =>
  let run1 := s.takeWhile isDigitC
  if 1 ≤ run1.length && run1.length ≤ 2 then
    let r1 := s.drop run1.length
    let w1 := (r1.takeWhile isJsWhite).length
    match matchLitCI ("al".toList) (r1.drop w1) with
    | some r2 =>
        let w2 := (r2.takeWhile isJsWhite).length
        let run2 := ((r2.drop w2).takeWhile isDigitC).take 2
        if 1 ≤ run2.length then
          let k := run1.length + w1 + 2 + w2 + run2.length
          let inicio := parseIntNat run1
          let fin := parseIntNat run2
          if fin < inicio then some (s.take k, k)
          else some (joinSpace (rangoNums inicio fin), k)
        else none
    | none => none
  else none

/-- `DECENA: /\bd\s*(\d{1,2})\b/gi`. -/
def mDecena : Option Char → Str → Option (Str × ℕ) := fun prev s =>
  if (match prev with | some p => isWordC p | none => false) then none
  else
    match s with
    | c :: r1 =>
        if toLowerJs c = 'd' then
          let w := (r1.takeWhile isJsWhite).length
          let run := (r1.drop w).takeWhile isDigitC
          if 1 ≤ run.length && run.length ≤ 2 &&
              boundaryAfter ((r1.drop w).drop run.length) then
            let unidad := parseIntNat run % 10
            some (joinSpace ((List.range 10).map
                    (fun dec => padStart2 (natStr dec ++ natStr unidad))),
                  1 + w + run.length)
          else none
        else none
    | [] => none

/-- `TERMINAL: /\bt\s*(\d{1,2})\b/gi`. -/
def mTerminal : Option Char → Str → Option (Str × ℕ) := fun prev s =>
  if (match prev with | some p => isWordC p | none => false) then none
  else
    match s with
    | c :: r1 =>
        if toLowerJs c = 't' then
          let w := (r1.takeWhile isJsWhite).length
          let run := (r1.drop w).takeWhile isDigitC
          if 1 ≤ run.length && run.length ≤ 2 &&
              boundaryAfter ((r1.drop w).drop run.length) then
            let dec := parseIntNat run % 10
            some (joinSpace ((List.range 10).map
                    (fun uni => padStart2 (natStr dec ++ natStr uni))),
                  1 + w + run.length)
          else none
        else none
    | [] => none

/-- `PARES_RELATIVOS: /(\d{2,4})\s*pr\s*(\d{1,3})/gi`. -/
def mParesRel : Option Char → Str → Option (Str × ℕ) := fun _ s =>
  let run1 := s.takeWhile isDigitC
  if 2 ≤ run1.length && run1.length ≤ 4 then
    let r1 := s.drop run1.length
    let w1 := (r1.takeWhile isJsWhite).length
    match matchLitCI ("pr".toList) (r1.drop w1) with
    | some r2 =>
        let w2 := (r2.takeWhile isJsWhite).length
        let run2 := ((r2.drop w2).takeWhile isDigitC).take 3
        if 1 ≤ run2.length then
          let base := padStart2 run1
          let cantidad := min (parseIntNat run2) 100
          some (joinSpace ((List.range cantidad).map
                  (fun i => base ++ padStart2 (natStr (i + 1)))),
                run1.length + w1 + 2 + w2 + run2.length)
        else none
    | none => none
  else none

/-! ## CENTENAS_TODAS:
`/(.+?)\s*por\s*todas?\s*(?:las?\s*)?centenas?(?:\s+con\s+(\d+(?:[.,]\d+)?))?/gi` -/

/-- Characters matched by `.` in a JavaScript regex (no line terminators). -/
def isDotC (c : Char) : Bool :=
  let v := c.toNat
  !(v = 10 || v = 13 || v = 0x2028 || v = 0x2029)

/-- Match the tail of the pattern after the lazy group; returns the
captured amount (when present) and the number of consumed characters. -/
def matchCentTail (s : Str) : Option (Option Str × ℕ) :=
  let w1 := (s.takeWhile isJsWhite).length
  match matchLitCI ("por".toList) (s.drop w1) with
  | none => none
  | some r1 =>
    let w2 := (r1.takeWhile isJsWhite).length
    match matchLitCI ("toda".toList) (r1.drop w2) with
    | none => none
    | some r2 =>
      let s1 := (match r2 with
                 | c :: _ => if toLowerJs c = 's' then 1 else 0
                 | [] => 0)
      let r3 := r2.drop s1
      let w3 := (r3.takeWhile isJsWhite).length
      let r4 := r3.drop w3
      let lasLen :=
        (match matchLitCI ("la".toList) r4 with
         | some r5 =>
             let s2 := (match r5 with
                        | c :: _ => if toLowerJs c = 's' then 1 else 0
                        | [] => 0)
             2 + s2 + ((r5.drop s2).takeWhile isJsWhite).length
         | none => 0)
      let r6 := r4.drop lasLen
      match matchLitCI ("centena".toList) r6 with
      | none => none
      | some r7 =>
        let s3 := (match r7 with
                   | c :: _ => if toLowerJs c = 's' then 1 else 0
                   | [] => 0)
        let r8 := r7.drop s3
        let base := w1 + 3 + w2 + 4 + s1 + w3 + lasLen + 7 + s3
        -- optional `(?:\s+con\s+(\d+(?:[.,]\d+)?))?`
        let wc := (r8.takeWhile isJsWhite).length
        let conPart :=
          if 1 ≤ wc then
            match matchLitCI ("con".toList) (r8.drop wc) with
            | some r9 =>
                let wd := (r9.takeWhile isJsWhite).length
                if 1 ≤ wd then
                  let r10 := r9.drop wd
                  let intp := r10.takeWhile isDigitC
                  if 1 ≤ intp.length then
                    let r11 := r10.drop intp.length
                    match r11 with
                    | sep :: r12 =>
                        if (sep = '.' || sep = ',') && headDigit r12 then
                          let frac := r12.takeWhile isDigitC
                          some (intp ++ sep :: frac,
                                wc + 3 + wd + intp.length + 1 + frac.length)
                        else some (intp, wc + 3 + wd + intp.length)
                    | [] => some (intp, wc + 3 + wd + intp.length)
                  else none
                else none
            | none => none
          else none
        match conPart with
        | some (monto, k) => some (some monto, base + k)
        | none => some (none, base)

/-- Search for the lazily minimal first group: extend the group one
dot-character at a time until the tail matches. -/
def centSearch : ℕ → Str → Str → Option (Str × Option Str × ℕ)
  | 0, _, _ => none
  | fuel + 1, acc, rest =>
    match rest with
    | [] => none
    | c :: cs =>
        if isDotC c then
          match matchCentTail cs with
          | some (monto, k) => some ((c :: acc).reverse, monto, acc.length + 1 + k)
          | none => centSearch fuel (c :: acc) cs
        else none

/-- Replacement of CENTENAS_TODAS in Preprocessor.expandCentenasTodas:
every 2-digit extracted number contributes its ten centenas, and a
captured amount is re-attached as ` con M`. -/
def mCentenasTodas : Option Char → Str → Option (Str × ℕ) := fun _ s =>
  match centSearch (s.length + 1) [] s with
  | some (g1, monto, k) =>
      let numeros := preprocExtractNumbers g1
      let centenas := numeros.flatMap (fun num =>
        if num.length = 2 then (List.range 10).map (fun c => natStr c ++ num)
        else [])
      let montoPart :=
        match monto with
        | some m => " con ".toList ++ m
        | none => []
      some (joinSpace centenas ++ montoPart, k)
  | none => none

/-- Preprocessor.expandPatterns: the six global rewrites in source order. -/
def expandPatterns (s : Str) : Str :=
  let s1 := replaceAll mVolteo s
  let s2 := replaceAll mRango s1
  let s3 := replaceAll mDecena s2
  let s4 := replaceAll mTerminal s3
  let s5 := replaceAll mParesRel s4
  replaceAll mCentenasTodas s5

/-! ## Preprocessor.normalizeAmounts and cleanup -/

structure Config where
  strictMode : Bool
  autoExpand : Bool
  validateTotals : Bool
  maxJugadores : ℕ
  decimalSeparator : Str
  allowNegative : Bool
  maxMonto : ℚ
  defaultMontoFijo : ℚ
  defaultMontoCorrido : ℚ
deriving DecidableEq, Repr

/-- The default ParserConfig of parser.ts. -/
def defaultConfig : Config :=
  { strictMode := false
    autoExpand := true
    validateTotals := true
    maxJugadores := 100
    decimalSeparator := ['.']
    allowNegative := false
    maxMonto := 1000000
    defaultMontoFijo := 1
    defaultMontoCorrido := 0 }

/-- `(\d),(\d)` → digit, configured separator, digit. -/
def mDecComma (sepa : Str) : Option Char → Str → Option (Str × ℕ) := fun _ s =>
  match s with
  | a :: ',' :: b :: _ =>
      if isDigitC a && isDigitC b then some (a :: sepa ++ [b], 3) else none
  | _ => none

/-- `(con)(\d)/gi` → `$1 $2`. -/
def mConDigit : Option Char → Str → Option (Str × ℕ) := fun _ s =>
  match s with
  | c1 :: c2 :: c3 :: d :: _ =>
      if toLowerJs c1 = 'c' && toLowerJs c2 = 'o' && toLowerJs c3 = 'n' &&
          isDigitC d then
        some ([c1, c2, c3, ' ', d], 4)
      else none
  | _ => none

/-- `(\d)\s*(y)\s*(\d)/gi` → `$1 $2 $3`. -/
def mYDigit : Option Char → Str → Option (Str × ℕ) := fun _ s =>
  match s with
  | a :: r1 =>
      if isDigitC a then
        let w1 := (r1.takeWhile isJsWhite).length
        match r1.drop w1 with
        | y :: r2 =>
            if toLowerJs y = 'y' then
              let w2 := (r2.takeWhile isJsWhite).length
              match r2.drop w2 with
              | b :: _ =>
                  if isDigitC b then
                    some ([a, ' ', y, ' ', b], 1 + w1 + 1 + w2 + 1)
                  else none
              | [] => none
            else none
        | [] => none
      else none
  | [] => none

/-- `[$€£]` → removed. -/
def mCurrency : Option Char → Str → Option (Str × ℕ) := fun _ s =>
  match s with
  | c :: _ =>
      if c = '$' || c.toNat = 0x20AC || c.toNat = 0xA3 then some ([], 1) else none
  | [] => none

/-- `\b(\d+)\s*(?:pesos?|bs|bss?)\b/gi` → `$1`. -/
def mPesos : Option Char → Str → Option (Str × ℕ) := fun prev s =>
  if (match prev with | some p => isWordC p | none => false) then none
  else
    let run := s.takeWhile isDigitC
    if 1 ≤ run.length then
      let r1 := s.drop run.length
      let w := (r1.takeWhile isJsWhite).length
      let r2 := r1.drop w
      let tryWord (word : Str) : Option ℕ :=
        match matchLitCI word r2 with
        | some rest => if boundaryAfter rest then some word.length else none
        | none => none
      match tryWord ("pesos".toList) with
      | some n => some (run, run.length + w + n)
      | none =>
        match tryWord ("peso".toList) with
        | some n => some (run, run.length + w + n)
        | none =>
          match tryWord ("bs".toList) with
          | some n => some (run, run.length + w + n)
          | none =>
            match tryWord ("bss".toList) with
            | some n => some (run, run.length + w + n)
            | none => none
    else none

def normalizeAmounts (cfg : Config) (s : Str) : Str :=
  let s1 := replaceAll (mDecComma cfg.decimalSeparator) s
  let s2 := replaceAll mConDigit s1
  let s3 := replaceAll mYDigit s2
  let s4 := replaceAll mCurrency s3
  replaceAll mPesos s4

/-- The allowed class of Preprocessor.cleanup:
`[^\d\s\n.,a-záéíóúñüA-ZÁÉÍÓÚÑÜ\-*xconypdealtprv]` is removed. -/
def isCleanupAllowed (c : Char) : Bool :=
  isDigitC c || isJsWhite c || c = '\n' || c = '.' || c = ',' ||
  ('a' ≤ c && c ≤ 'z') || ('A' ≤ c && c ≤ 'Z') ||
  c = 'á' || c = 'é' || c = 'í' || c = 'ó' || c = 'ú' || c = 'ñ' || c = 'ü' ||
  c = 'Á' || c = 'É' || c = 'Í' || c = 'Ó' || c = 'Ú' || c = 'Ñ' || c = 'Ü' ||
  c = '-' || c = '*' || c = 'x'

/-- Runs of ASCII spaces before a newline (`/ +\n/g` → `\n`). -/
def mSpacesNl : Option Char → Str → Option (Str × ℕ) := fun _ s =>
  let k := (s.takeWhile (· = ' ')).length
  if 1 ≤ k then
    match s.drop k with
    | '\n' :: _ => some (['\n'], k + 1)
    | _ => none
  else none

def dropTrailingNl (s : Str) : Str := (s.reverse.dropWhile (· = '\n')).reverse

def cleanup (s : Str) : Str :=
  let s1 := dropTrailingNl (s.dropWhile (· = '\n'))
  let s2 := replaceAll mSpacesNl s1
  let s3 := s2.filter isCleanupAllowed
  joinNl ((splitNl s3).filter (fun l => !(trimJs l).isEmpty))

/-- Preprocessor.process: the full normalization pipeline. -/
def preprocess (cfg : Config) (s : Str) : Str :=
  let s1 := normalizeSpaces s
  let s2 := normalizeSpecialCharacters s1
  let s3 := if cfg.autoExpand then expandPatterns s2 else s2
  let s4 := normalizeAmounts cfg s3
  cleanup s4

/-! ## Validator (validators.ts) -/

structure ValidationResult where
  valid : Bool
  errors : List Str
  warnings : List Str
  suggestions : List Str
deriving DecidableEq, Repr

/-- Case-insensitive whole-word containment (`\bword\b` with the `i`
flag), scanning every position of the string. -/
def containsWordCIGo (w : Str) : Bool → Str → Bool
  | _, [] => false
  | prevW, c :: cs =>
      (if prevW then false
       else match matchLitCI w (c :: cs) with
            | some rest => boundaryAfter rest
            | none => false) ||
      containsWordCIGo w (isWordC c) cs

def containsWordCI (w : Str) (s : Str) : Bool := containsWordCIGo w false s

/-- Validator.isNombreJugador — the classifier used by the block
segmenter (ratio 0.6, no upper length bound). -/
def validatorIsNombreJugador (line : Str) : Bool :=
  let t := trimJs line
  if t.length < 2 then false
  else if headDigit t then false
  else if containsReserved t then false
  else decide (((letterCount t : ℚ) / (t.length : ℚ)) > 6/10)

/-- Validator.isTotalLine: `/^\s*total\b/i` on the trimmed line. -/
def isTotalLine (line : Str) : Bool :=
  let t := trimJs line
  match matchLitCI ("total".toList) (t.dropWhile isJsWhite) with
  | some rest => boundaryAfter rest
  | none => false

/-- Validator.validateTotalLine: `/\btotal\b[:\s]*\d+(?:[.,]\d+)?/i`. -/
def validateTotalLineGo : Bool → Str → Bool
  | _, [] => false
  | prevW, c :: cs =>
      (if prevW then false
       else match matchLitCI ("total".toList) (c :: cs) with
            | some rest =>
                let k := (rest.takeWhile (fun d => d = ':' || isJsWhite d)).length
                headDigit (rest.drop k)
            | none => false) ||
      validateTotalLineGo (isWordC c) cs

def validateTotalLine (line : Str) : Bool := validateTotalLineGo false line

def hasNumbers (line : Str) : Bool := line.any isDigitC

/-- Validator.hasAmounts: `/(?:con|de|a)\s*\d+(?:[.,]\d+)?/i`. -/
def hasAmountsGo : Str → Bool
  | [] => false
  | c :: cs =>
      (["con".toList, "de".toList, "a".toList].any fun w =>
        match matchLitCI w (c :: cs) with
        | some rest => headDigit (rest.dropWhile isJsWhite)
        | none => false) ||
      hasAmountsGo cs

def hasAmounts (line : Str) : Bool := hasAmountsGo line

/-- Validator.validateNumber. -/
def validateNumber (num : Str) : Bool :=
  if !(2 ≤ num.length && num.length ≤ 4 && num.all isDigitC) then false
  else
    let n := parseIntNat num
    if num.length = 2 then n ≤ 99
    else if num.length = 3 then n ≤ 999
    else n ≤ 9999

/-- Validator.findDuplicates (insertion order of first duplication). -/
def findDuplicatesGo [DecidableEq α] : List α → List α → List α → List α
  | _, dups, [] => dups.reverse
  | seen, dups, x :: xs =>
      if seen.contains x then
        if dups.contains x then findDuplicatesGo seen dups xs
        else findDuplicatesGo seen (x :: dups) xs
      else findDuplicatesGo (x :: seen) dups xs

def findDuplicates [DecidableEq α] (xs : List α) : List α :=
  findDuplicatesGo [] [] xs

/-- `/\d+\s*[*x]\s*\d+/` (case-sensitive) used as a known-pattern probe. -/
def mParleSimpleProbe : Option Char → Str → Option (Str × ℕ) := fun _ s =>
  let run := s.takeWhile isDigitC
  if 1 ≤ run.length then
    let r1 := s.drop run.length
    let w1 := (r1.takeWhile isJsWhite).length
    match r1.drop w1 with
    | c :: r2 =>
        if (c = '*' || c = 'x') && headDigit (r2.dropWhile isJsWhite) then
          some ([], 1)
        else none
    | [] => none
  else none

/-- Validator.hasInvalidPatterns: the line has content but matches no
known pattern. -/
def hasInvalidPatterns (line : Str) : Bool :=
  let known : List Bool :=
    [testAny mVolteo line, testAny mRango line, testAny mDecena line,
     testAny mTerminal line, testAny mParesRel line,
     testAny mCentenasTodas line, testAny mParleSimpleProbe line,
     containsWordCI ("candado".toList) line,
     containsWordCI ("parle".toList) line,
     containsWordCI ("con".toList) line,
     containsWordCI ("y".toList) line]
  !(trimJs line).isEmpty && !known.any id

def hasParleOrCandado (line : Str) : Bool :=
  containsWordCI ("parle".toList) line || containsWordCI ("candado".toList) line

/-- Validator.validateParleCandado. -/
def validateParleCandado (line : Str) (n : ℕ) : ValidationResult :=
  let numbers := validatorExtractNumbers line
  let errors :=
    if numbers.length < 2 then
      [("Línea ".toList) ++ natStr n ++
        (": Parle/candado requiere al menos 2 números".toList)]
    else []
  let amounts := extractAmountsAll line
  let warnings :=
    if amounts.isEmpty then
      [("Línea ".toList) ++ natStr n ++
        (": Parle/candado sin monto especificado".toList)]
    else []
  let sug1 :=
    if containsSub ("parle".toList) line && !containsSub ("con".toList) line then
      [("Línea ".toList) ++ natStr n ++
        (": Use parle con X en lugar de solo parle".toList)]
    else []
  let sug2 :=
    if containsSub ("candado".toList) line && !containsSub ("con".toList) line then
      [("Línea ".toList) ++ natStr n ++
        (": Use candado con X en lugar de solo candado".toList)]
    else []
  { valid := errors.isEmpty, errors := errors, warnings := warnings,
    suggestions := sug1 ++ sug2 }

/-- Validator.validateBetLine. -/
def validateBetLine (cfg : Config) (line : Str) (n : ℕ) : ValidationResult :=
  let pre := ("Línea ".toList) ++ natStr n ++ (": ".toList)
  let e1 := if !hasNumbers line then [pre ++ ("No se encontraron números".toList)] else []
  let amounts := extractAmountsAll line
  let noAmounts := !hasAmounts line
  let w1 := if noAmounts then [pre ++ ("No se encontraron montos".toList)] else []
  let s1 := if noAmounts then [("Agregue con X para especificar el monto".toList)] else []
  let amountIssues :=
    if noAmounts then ([], [])
    else amounts.foldr
      (fun a (acc : List Str × List Str) =>
        let errs :=
          (if a < 0 && !cfg.allowNegative then
            [pre ++ ("Monto negativo no permitido".toList)] else [])
        let warns :=
          (if cfg.maxMonto < a then [pre ++ ("Monto excesivo".toList)] else []) ++
          (if a = 0 then [pre ++ ("Monto cero".toList)] else [])
        (errs ++ acc.1, warns ++ acc.2))
      ([], [])
  let numbers := validatorExtractNumbers line
  let e2 := numbers.foldr
    (fun m acc =>
      (if !validateNumber m then [pre ++ ("Número inválido: ".toList) ++ m] else []) ++ acc)
    []
  let dups := findDuplicates numbers
  let w2 :=
    if !dups.isEmpty then
      [pre ++ ("Números duplicados en la misma línea: ".toList) ++
        joinSpace dups]
    else []
  let w3 := if hasInvalidPatterns line then
      [pre ++ ("Posible patrón no reconocido".toList)] else []
  let sub :=
    if hasParleOrCandado line then validateParleCandado line n
    else { valid := true, errors := [], warnings := [], suggestions := [] }
  let errors := e1 ++ amountIssues.1 ++ e2 ++ sub.errors
  let warnings := w1 ++ amountIssues.2 ++ w2 ++ w3 ++ sub.warnings
  { valid := errors.isEmpty, errors := errors, warnings := warnings,
    suggestions := s1 }

/-- Validator.validateLine. -/
def validateLine (cfg : Config) (line : Str) (n : ℕ) : ValidationResult :=
  if (trimJs line).isEmpty then
    { valid := true, errors := [], warnings := [], suggestions := [] }
  else if isTotalLine line then
    if !validateTotalLine line then
      { valid := false
        errors := [("Línea ".toList) ++ natStr n ++ (": Formato de total inválido".toList)]
        warnings := []
        suggestions := [("Use Total: 100 o Total 100".toList)] }
    else { valid := true, errors := [], warnings := [], suggestions := [] }
  else if validatorIsNombreJugador line then
    { valid := true
      errors := []
      warnings :=
        (if 35 < line.length then
          [("Línea ".toList) ++ natStr n ++ (": Nombre muy largo".toList)] else []) ++
        (if line.length < 2 then
          [("Línea ".toList) ++ natStr n ++ (": Nombre muy corto".toList)] else [])
      suggestions := [] }
  else validateBetLine cfg line n

/-- The lines considered by validateSyntax and validateGlobal
(`text.split('\n').filter(l => l.trim())`). -/
def filteredLines (text : Str) : List Str :=
  (splitNl text).filter (fun l => !(trimJs l).isEmpty)

/-- Validator.validateGlobal (errors, warnings appended at the end). -/
def validateGlobal (cfg : Config) (text : Str) : List Str × List Str :=
  let lines := filteredLines text
  let jugadores := lines.filter validatorIsNombreJugador
  let e1 :=
    if cfg.maxJugadores < jugadores.length then
      [("Demasiados jugadores: ".toList) ++ natStr jugadores.length]
    else []
  let w1 := if jugadores.isEmpty then [("No se detectaron nombres de jugador".toList)] else []
  let totalLines := lines.filter isTotalLine
  let w2 :=
    if 1 < totalLines.length then
      [("Múltiples líneas de total encontradas: ".toList) ++ natStr totalLines.length]
    else []
  let processed := lines.filter (fun l =>
    validatorIsNombreJugador l || isTotalLine l || hasNumbers l)
  let w3 :=
    if processed.length < lines.length then
      [natStr (lines.length - processed.length) ++ (" líneas no fueron procesadas".toList)]
    else []
  (e1, w1 ++ w2 ++ w3)

/-- Validator.validateSyntax. -/
def validateSyntax (cfg : Config) (text : Str) : ValidationResult :=
  let lines := filteredLines text
  if lines.isEmpty then
    { valid := false, errors := [("Texto vacío".toList)], warnings := [],
      suggestions := [] }
  else
    let perLine := (lines.enum.map (fun p => validateLine cfg p.2 (p.1 + 1)))
    let errs := perLine.flatMap (·.errors)
    let warns := perLine.flatMap (·.warnings)
    let sugs := perLine.flatMap (·.suggestions)
    let glob := validateGlobal cfg text
    let errors := errs ++ glob.1
    let warnings := warns ++ glob.2
    { valid := errors.isEmpty, errors := errors, warnings := warnings,
      suggestions := sugs }

/-! ## Data model (types.ts) and BasePlugin -/

inductive TipoApuesta where
  | fijo | corrido | parle | centena | candado | especial
deriving DecidableEq, Repr

structure DetalleApuesta where
  tipo : TipoApuesta
  numeros : List Str
  monto : ℚ
  montoUnitario : ℚ
  combinaciones : Option ℕ
  pares : Option (List (Str × Str))
  lineaOriginal : Str
  lineaNumero : Option ℕ
deriving DecidableEq, Repr

/-- The `extras` record spread over the detalle literal in
BasePlugin.createDetalle; a present field overrides the computed one. -/
structure DetalleExtras where
  monto : Option ℚ := none
  combinaciones : Option ℕ := none
  pares : Option (List (Str × Str)) := none
deriving DecidableEq, Repr

/-- BasePlugin.createDetalle: `monto = numeros.length * montoUnitario`,
then `...extras` (spread last, so extras override). -/
def createDetalle (tipo : TipoApuesta) (numeros : List Str)
    (montoUnitario : ℚ) (lineaOriginal : Str) (lineaNumero : Option ℕ)
    (extras : DetalleExtras) : DetalleApuesta :=
  { tipo := tipo
    numeros := numeros
    monto := extras.monto.getD ((numeros.length : ℚ) * montoUnitario)
    montoUnitario := montoUnitario
    combinaciones := extras.combinaciones
    pares := extras.pares
    lineaOriginal := lineaOriginal
    lineaNumero := lineaNumero }

structure Jugada where
  jugador : Str
  totalCalculado : ℚ
  totalDeclarado : Option JsNum
  lineas : List Str
  detalles : List DetalleApuesta
  isValid : Bool
  warnings : List Str
  errors : List Str
deriving DecidableEq, Repr

def sumMontos (detalles : List DetalleApuesta) : ℚ :=
  detalles.foldl (fun acc d => acc + d.monto) 0

/-- The validity predicate
`totalDeclarado === null || Math.abs(totalCalculado - totalDeclarado) < 0.01`
(NaN comparisons are false in JavaScript). -/
def computeIsValid (totalCalculado : ℚ) (totalDeclarado : Option JsNum) : Bool :=
  match totalDeclarado with
  | none => true
  | some JsNum.nan => false
  | some (JsNum.num q) => |totalCalculado - q| < 1/100

/-- BasePlugin.createJugada. -/
def createJugada (jugador : Str) (detalles : List DetalleApuesta)
    (totalDeclarado : Option JsNum) (lineas : List Str)
    (warnings errors : List Str) : Jugada :=
  let totalCalculado := sumMontos detalles
  { jugador := jugador
    totalCalculado := totalCalculado
    totalDeclarado := totalDeclarado
    lineas := lineas
    detalles := detalles
    isValid := computeIsValid totalCalculado totalDeclarado
    warnings := warnings
    errors := errors }

/-! ## Validator.validateDetalle / validateJugada -/

def tipoName : TipoApuesta → Str
  | TipoApuesta.fijo => "fijo".toList
  | TipoApuesta.corrido => "corrido".toList
  | TipoApuesta.parle => "parle".toList
  | TipoApuesta.centena => "centena".toList
  | TipoApuesta.candado => "candado".toList
  | TipoApuesta.especial => "especial".toList

/-- Validator.validateDetalle.  The `tipo` membership check and the
`isNaN` checks of the source cannot fail in the typed model (`tipo` is an
enum and amounts are rationals). -/
def validateDetalle (cfg : Config) (detalle : DetalleApuesta) : ValidationResult :=
  let e1 := if detalle.numeros.isEmpty then [("Sin números en la apuesta".toList)] else []
  let e2 := detalle.numeros.foldr
    (fun m acc =>
      (if !validateNumber m then [("Número inválido: ".toList) ++ m] else []) ++ acc) []
  let e3 :=
    if detalle.monto < 0 && !cfg.allowNegative then
      [("Monto negativo".toList)] else []
  let w1 := if cfg.maxMonto < detalle.monto then [("Monto excesivo".toList)] else []
  let tipoIssues : List Str × List Str :=
    match detalle.tipo with
    | TipoApuesta.parle =>
        (match detalle.combinaciones with
         | none => ([("Parle sin número de combinaciones".toList)], [])
         | some k => if k < 1 then ([], [("Parle con 0 combinaciones".toList)]) else ([], []))
    | TipoApuesta.candado =>
        (match detalle.combinaciones with
         | none => ([("Candado sin número de combinaciones".toList)], [])
         | some _ => ([], []))
    | TipoApuesta.centena =>
        let invalid := detalle.numeros.filter (fun n => n.length ≠ 3)
        (if !invalid.isEmpty then
          [("Centenas inválidas: ".toList) ++ joinSpace invalid] else [], [])
    | _ => ([], [])
  let errors := e1 ++ e2 ++ e3 ++ tipoIssues.1
  let warnings := w1 ++ tipoIssues.2
  { valid := errors.isEmpty, errors := errors, warnings := warnings,
    suggestions := [] }

def lineaNumStr (n : Option ℕ) : Str :=
  match n with
  | some k => natStr k
  | none => "undefined".toList

/-- Validator.validateJugada. -/
def validateJugada (cfg : Config) (j : Jugada) : ValidationResult :=
  let w0 :=
    if j.jugador.isEmpty || j.jugador = ("Desconocido".toList) then
      [("Nombre de jugador no identificado".toList)] else []
  let e0 :=
    if j.totalCalculado < 0 && !cfg.allowNegative then
      [("Total calculado negativo".toList)] else []
  let w1 :=
    if cfg.maxMonto < j.totalCalculado then
      [("Total calculado excede el máximo permitido".toList)] else []
  let perDet := j.detalles.map (fun d =>
    let v := validateDetalle cfg d
    (v.errors.map (fun e =>
        ("Detalle línea ".toList) ++ lineaNumStr d.lineaNumero ++ (": ".toList) ++ e),
     v.warnings.map (fun w =>
        ("Detalle línea ".toList) ++ lineaNumStr d.lineaNumero ++ (": ".toList) ++ w)))
  let eDet := perDet.flatMap (·.1)
  let wDet := perDet.flatMap (·.2)
  let totalsIssue : List Str × List Str :=
    match j.totalDeclarado with
    | some (JsNum.num q) =>
        let diff := |j.totalCalculado - q|
        if 1/100 < diff then
          let msg := ("Diferencia entre total calculado y declarado".toList)
          if cfg.validateTotals then
            if diff < 1 then ([], [msg]) else ([msg], [])
          else ([], [msg])
        else ([], [])
    | _ => ([], [])
  let allNumbers := j.detalles.flatMap (·.numeros)
  let dups := findDuplicates allNumbers
  let w2 :=
    if !dups.isEmpty then
      [("Números duplicados encontrados: ".toList) ++ joinSpace dups] else []
  let errors := e0 ++ eDet ++ totalsIssue.1
  let warnings := w0 ++ w1 ++ wDet ++ totalsIssue.2 ++ w2
  { valid := errors.isEmpty, errors := errors, warnings := warnings,
    suggestions := [] }

/-! ## Parser (parser.ts) -/

/-- First match of `/total\s*[:=]?\s*\$?\s*([\d.,]+)/i`, returning the
captured amount group. -/
def totalAmountAt (s : Str) : Option Str :=
  match matchLitCI ("total".toList) s with
  | some r1 =>
      let w1 := (r1.takeWhile isJsWhite).length
      let r2 := r1.drop w1
      let k := (match r2 with
                | c :: _ => if c = ':' || c = '=' then 1 else 0
                | [] => 0)
      let r3 := r2.drop k
      let w2 := (r3.takeWhile isJsWhite).length
      let r4 := r3.drop w2
      let kd := (match r4 with
                 | c :: _ => if c = '$' then 1 else 0
                 | [] => 0)
      let r5 := r4.drop kd
      let w3 := (r5.takeWhile isJsWhite).length
      let run := (r5.drop w3).takeWhile (fun c => isDigitC c || c = '.' || c = ',')
      if 1 ≤ run.length then some run else none
  | none => none

def firstTotalGo : Str → Option Str
  | [] => none
  | c :: cs =>
      match totalAmountAt (c :: cs) with
      | some g => some g
      | none => firstTotalGo cs

/-- Parser.extractTotalDeclarado:
`parseFloat(match[1].replace(',', '.'))` or null. -/
def extractTotalDeclarado (bloque : Str) : Option JsNum :=
  match firstTotalGo bloque with
  | some g => some (parseFloatJs (replaceFirstComma g))
  | none => none

/-- Parser.parseLinea — the source returns an empty list
("Por ahora, devolvemos un array vacío"). -/
def parseLinea (_cfg : Config) (_linea : Str) (_lineIndex : ℕ)
    (_lastFijoMonto _lastCorridoMonto : ℚ) : List DetalleApuesta := []

structure BloqueState where
  detalles : List DetalleApuesta
  warnings : List Str
  errors : List Str
  totalDeclarado : Option JsNum
  lastFijoMonto : ℚ
  lastCorridoMonto : ℚ
deriving Repr

/-- Parser.parseBloqueStandard. -/
def parseBloqueStandard (cfg : Config) (jugador : Str) (lineas : List Str) :
    Jugada :=
  let init : BloqueState :=
    { detalles := [], warnings := [], errors := [], totalDeclarado := none
      lastFijoMonto := cfg.defaultMontoFijo
      lastCorridoMonto := cfg.defaultMontoCorrido }
  let st := lineas.enum.foldl
    (fun (st : BloqueState) p =>
      let i := p.1
      let linea := p.2
      if i = 0 && validatorIsNombreJugador linea then st
      else
        match firstTotalGo linea with
        | some g =>
            { st with totalDeclarado := some (parseFloatJs (replaceFirstComma g)) }
        | none =>
            let ds := parseLinea cfg linea i st.lastFijoMonto st.lastCorridoMonto
            if ds.isEmpty then st
            else
              let ultimo := ds.getLast?
              let lf := (match ultimo with
                         | some d => if d.tipo = TipoApuesta.fijo then d.montoUnitario
                                     else st.lastFijoMonto
                         | none => st.lastFijoMonto)
              let lc := (match ultimo with
                         | some d => if d.tipo = TipoApuesta.corrido then d.montoUnitario
                                     else st.lastCorridoMonto
                         | none => st.lastCorridoMonto)
              { st with detalles := st.detalles ++ ds
                        lastFijoMonto := lf, lastCorridoMonto := lc })
    init
  let totalCalculado := sumMontos st.detalles
  { jugador := jugador
    totalCalculado := totalCalculado
    totalDeclarado := st.totalDeclarado
    lineas := lineas.filter (fun l => !isTotalLine l)
    detalles := st.detalles
    isValid := computeIsValid totalCalculado st.totalDeclarado
    warnings := st.warnings
    errors := st.errors }

/-- Parser.extractBloques. -/
structure BloquesState where
  bloques : List Str
  current : List Str
  inBloque : Bool

def extractBloques (text : Str) : List Str :=
  let st := (splitNl text).foldl
    (fun (st : BloquesState) line =>
      let trimmed := trimJs line
      if trimmed.isEmpty then
        if st.inBloque && !st.current.isEmpty then
          { bloques := st.bloques ++ [joinNl st.current], current := [],
            inBloque := false }
        else st
      else if validatorIsNombreJugador trimmed && !st.inBloque then
        { bloques := st.bloques ++
            (if st.current.isEmpty then [] else [joinNl st.current])
          current := [trimmed], inBloque := true }
      else
        { st with current := st.current ++ [line], inBloque := true })
    { bloques := [], current := [], inBloque := false }
  let all := st.bloques ++ (if st.current.isEmpty then [] else [joinNl st.current])
  all.filter (fun b => !(trimJs b).isEmpty)

/-- Parser.extractJugador. -/
def extractJugador (bloque : Str) : Str :=
  let firstLine := trimJs ((splitNl bloque).headD [])
  if validatorIsNombreJugador firstLine then firstLine
  else "Desconocido".toList

/-- Parser.parseBloque — no plugins are registered by
registerDefaultPlugins, so every block goes through the standard path. -/
def parseBloque (cfg : Config) (bloque : Str) : Jugada :=
  let lineas := ((splitNl bloque).map trimJs).filter (fun l => !l.isEmpty)
  parseBloqueStandard cfg (extractJugador bloque) lineas

/-- Parser.calculateConfidence. -/
def calculateConfidence (jugadas : List Jugada) (validation : ValidationResult) :
    ℚ :=
  let c1 : ℚ :=
    if 0 < validation.errors.length then
      1 - (validation.errors.length : ℚ) * (1/10)
    else 1
  let c2 : ℚ :=
    if 0 < validation.warnings.length then
      c1 - (validation.warnings.length : ℚ) * (5/100)
    else c1
  let invalid := (jugadas.filter (fun j => !j.isValid)).length
  let c3 : ℚ :=
    if 0 < invalid then
      c2 - ((invalid : ℚ) / (jugadas.length : ℚ)) * (3/10)
    else c2
  let exact := (jugadas.filter (fun j =>
    match j.totalDeclarado with
    | some (JsNum.num q) => decide (|j.totalCalculado - q| < 1/100)
    | _ => false)).length
  let c4 : ℚ :=
    if 0 < exact then
      c3 + ((exact : ℚ) / (jugadas.length : ℚ)) * (2/10)
    else c3
  max 0 (min 1 c4)

structure Summary where
  totalJugadas : ℕ
  totalCalculado : ℚ
  totalDeclarado : ℚ
  difference : ℚ
  isValid : Bool
  confidence : ℚ
deriving DecidableEq, Repr

structure ParseMeta where
  originalLength : ℕ
  processedLength : ℕ
  warnings : List Str
  errors : List Str
deriving DecidableEq, Repr

structure ParseStats where
  totalApuestas : ℕ
  totalNumeros : ℕ
deriving DecidableEq, Repr

structure ParseResult where
  success : Bool
  jugadas : List Jugada
  summary : Summary
  metadata : ParseMeta
  stats : ParseStats
deriving DecidableEq, Repr

/-- Declared-total contribution `j.totalDeclarado || 0` (null and NaN are
falsy). -/
def declContribution (td : Option JsNum) : ℚ :=
  match td with
  | some (JsNum.num q) => q
  | _ => 0

/-- Assembly of the successful ParseResult literal of Parser.parse:
`success` is defined as the emptiness of the collected error list, which
is also stored in `metadata.errors`. -/
def mkParseResult (jugadas : List Jugada) (summary : Summary)
    (origLen procLen : ℕ) (warnings errors : List Str) (stats : ParseStats) :
    ParseResult :=
  { success := errors.isEmpty
    jugadas := jugadas
    summary := summary
    metadata :=
      { originalLength := origLen
        processedLength := procLen
        warnings := warnings
        errors := errors }
    stats := stats }

/-- The successfully assembled ParseResult of Parser.parse (the value
built after the validation and max-jugadores checks have passed). -/
def parseOk (cfg : Config) (text : Str) : ParseResult :=
  let preprocessed := preprocess cfg text
  let validation := validateSyntax cfg preprocessed
  let bloques := extractBloques preprocessed
  let jugadas := bloques.map (parseBloque cfg)
  let perJugada := jugadas.map (fun j =>
    let v := validateJugada cfg j
    if !v.valid then
      (v.warnings.map (fun w => '[' :: j.jugador ++ ("] ".toList) ++ w),
       if cfg.strictMode then
         v.errors.map (fun e => '[' :: j.jugador ++ ("] ".toList) ++ e)
       else [])
    else ([], []))
  let warnings := perJugada.flatMap (fun x => x.1)
  let errors := perJugada.flatMap (fun x => x.2)
  let totalCalculado := jugadas.foldl (fun acc j => acc + j.totalCalculado) 0
  let totalDeclarado :=
    jugadas.foldl (fun acc j => acc + declContribution j.totalDeclarado) 0
  let difference := |totalCalculado - totalDeclarado|
  mkParseResult jugadas
    { totalJugadas := jugadas.length
      totalCalculado := totalCalculado
      totalDeclarado := totalDeclarado
      difference := difference
      isValid := decide (difference < 1/100)
      confidence := calculateConfidence jugadas validation }
    text.length preprocessed.length warnings errors
    { totalApuestas := (jugadas.map (fun d => d.detalles.length)).sum
      totalNumeros :=
        (jugadas.map (fun j =>
          (j.detalles.map (fun d => d.numeros.length)).sum)).sum }

/-- The body of Parser.parse up to the first thrown exception.  The two
synchronous throw sites are the strict-mode syntax validation and the
max-jugadores check; with no plugins registered, block processing cannot
throw. -/
def parseBody (cfg : Config) (text : Str) : Except Str ParseResult :=
  let preprocessed := preprocess cfg text
  let validation := validateSyntax cfg preprocessed
  if !validation.valid && cfg.strictMode then
    Except.error ("Validación de sintaxis fallida".toList)
  else
    let bloques := extractBloques preprocessed
    if cfg.maxJugadores < bloques.length then
      Except.error
        (("Número máximo de jugadores excedido: ".toList) ++ natStr bloques.length)
    else
      Except.ok (parseOk cfg text)

/-- Parser.parse: the outer try/catch turns every thrown error into a
failed ParseResult with the message in metadata.errors. -/
def parse (cfg : Config) (text : Str) : ParseResult :=
  match parseBody cfg text with
  | Except.ok r => r
  | Except.error msg =>
      { success := false
        jugadas := []
        summary :=
          { totalJugadas := 0, totalCalculado := 0, totalDeclarado := 0,
            difference := 0, isValid := false, confidence := 0 }
        metadata :=
          { originalLength := text.length, processedLength := 0,
            warnings := [], errors := [msg] }
        stats := { totalApuestas := 0, totalNumeros := 0 } }

/-! ## ParlePlugin and CandadoPlugin (default-plugins.ts)

These plugins are defined in the source but never registered by
`registerDefaultPlugins`, so they do not run inside `parse`; their
`process` methods are modelled here as standalone functions with fresh
regex state (`lastIndex = 0`). -/

/-- A number group `(\d+(?:[.,]\d+)?)` at the head of a string;
returns the captured text and the rest. -/
def numGroupAt (s : Str) : Option (Str × Str) :=
  let intp := s.takeWhile isDigitC
  if 1 ≤ intp.length then
    let rest := s.drop intp.length
    match rest with
    | sep :: r2 =>
        if (sep = '.' || sep = ',') && headDigit r2 then
          let frac := r2.takeWhile isDigitC
          some (intp ++ sep :: frac, r2.drop frac.length)
        else some (intp, rest)
    | [] => some (intp, [])
  else none

/-- Matches of `PARLE_EXPLICITO: /(\d{2,4})\s*[*x]\s*(\d{2,4})/gi`. -/
def parleExplicitGo : ℕ → Str → List (Str × Str)
  | 0, _ => []
  | _ + 1, [] => []
  | fuel + 1, c :: cs =>
    let s := c :: cs
    let run1 := s.takeWhile isDigitC
    let fallback := parleExplicitGo fuel cs
    if 2 ≤ run1.length && run1.length ≤ 4 then
      let r1 := s.drop run1.length
      let w1 := (r1.takeWhile isJsWhite).length
      match r1.drop w1 with
      | op :: r2 =>
          if op = '*' || toLowerJs op = 'x' then
            let w2 := (r2.takeWhile isJsWhite).length
            let run2 := (r2.drop w2).takeWhile isDigitC
            if 2 ≤ run2.length then
              let g2 := run2.take 4
              (run1, g2) :: parleExplicitGo fuel ((r2.drop w2).drop g2.length)
            else fallback
          else fallback
      | [] => fallback
    else fallback

def parleExplicitMatches (s : Str) : List (Str × Str) :=
  parleExplicitGo (s.length + 1) s

/-- First match of `/parle\s+con\s+(\d+(?:[.,]\d+)?)/i`. -/
def parleConMontoGo : Str → Option Str
  | [] => none
  | c :: cs =>
      (match matchLitCI ("parle".toList) (c :: cs) with
       | some r1 =>
           let w1 := (r1.takeWhile isJsWhite).length
           if 1 ≤ w1 then
             match matchLitCI ("con".toList) (r1.drop w1) with
             | some r2 =>
                 let w2 := (r2.takeWhile isJsWhite).length
                 if 1 ≤ w2 then
                   match numGroupAt (r2.drop w2) with
                   | some (g, _) => some g
                   | none => none
                 else none
             | none => none
           else none
       | none => none).orElse (fun _ => parleConMontoGo cs)

/-- The stake of an explicit parle line: the `parle con M` amount when
present, otherwise `config.defaultMontoFijo || 1`. -/
def parleMonto (cfg : Config) (text : Str) : ℚ :=
  match parleConMontoGo text with
  | some g =>
      match parseFloatJs (replaceFirstComma g) with
      | JsNum.num q => q
      | JsNum.nan => 0
  | none => if cfg.defaultMontoFijo = 0 then 1 else cfg.defaultMontoFijo

/-- The detalle built for one explicit `a*b` parle match
(ParlePlugin.process, explicit branch). -/
def parleExplicitoDetalle (n1 n2 : Str) (monto : ℚ) (text : Str) :
    DetalleApuesta :=
  createDetalle TipoApuesta.parle [padStart2 n1, padStart2 n2] monto text none
    { pares := some [(padStart2 n1, padStart2 n2)], combinaciones := some 1 }

/-- `calculateCombinations` of ParlePlugin / CandadoPlugin. -/
def calculateCombinations (n : ℕ) : ℕ :=
  if n < 2 then 0 else n * (n - 1) / 2

/-- Match of `/\bp\s*(\d+(?:[.,]\d+)?)\s*$/i` — the inline parle stake. -/
def parleInlineGo : Bool → Str → Option Str
  | _, [] => none
  | prevW, c :: cs =>
      (if prevW then none
       else if toLowerJs c = 'p' then
         let w := (cs.takeWhile isJsWhite).length
         match numGroupAt (cs.drop w) with
         | some (g, rest) =>
             if (rest.dropWhile isJsWhite).isEmpty then some g else none
         | none => none
       else none).orElse (fun _ => parleInlineGo (isWordC c) cs)

def parleInlineMatch (s : Str) : Option Str := parleInlineGo false s

/-- Removal of the first match of `/\bp\s*\d+\s*$/i` (note: integer
digits only, unlike the inline capture). -/
def parleInlineStripGo : Bool → Str → Str
  | _, [] => []
  | prevW, c :: cs =>
      if !prevW && toLowerJs c = 'p' &&
          (let w := (cs.takeWhile isJsWhite).length
           let run := (cs.drop w).takeWhile isDigitC
           1 ≤ run.length &&
             (((cs.drop w).drop run.length).dropWhile isJsWhite).isEmpty) then
        []
      else c :: parleInlineStripGo (isWordC c) cs

def parleInlineStrip (s : Str) : Str := parleInlineStripGo false s

/-- Backtracking helper for `(\d{2}(?:\s+\d{2})*)` followed by a tail
pattern: tries the longest list of two-digit groups first, falling back
to the tail at each level. -/
def numListThen (tail : Str → Option α) : ℕ → ℕ → Str → Option (ℕ × α)
  | 0, _, _ => none
  | fuel + 1, g1len, rest =>
    let tryMore : Option (ℕ × α) :=
      let w := (rest.takeWhile isJsWhite).length
      if 1 ≤ w then
        match rest.drop w with
        | a :: b :: rest2 =>
            if isDigitC a && isDigitC b then
              numListThen tail fuel (g1len + w + 2) rest2
            else none
        | _ => none
      else none
    match tryMore with
    | some r => some r
    | none =>
      match tail rest with
      | some t => some (g1len, t)
      | none => none

/-- Tail of PARLE_COMPUESTO: `\s+con\s+(g2)\s+p\s*(g3)`. -/
def parleCompTail (rest : Str) : Option (Str × Str) :=
  let w1 := (rest.takeWhile isJsWhite).length
  if 1 ≤ w1 then
    match matchLitCI ("con".toList) (rest.drop w1) with
    | some r1 =>
        let w2 := (r1.takeWhile isJsWhite).length
        if 1 ≤ w2 then
          match numGroupAt (r1.drop w2) with
          | some (g2, r2) =>
              let w3 := (r2.takeWhile isJsWhite).length
              if 1 ≤ w3 then
                match r2.drop w3 with
                | p :: r3 =>
                    if toLowerJs p = 'p' then
                      let w4 := (r3.takeWhile isJsWhite).length
                      match numGroupAt (r3.drop w4) with
                      | some (g3, _) => some (g2, g3)
                      | none => none
                    else none
                | [] => none
              else none
          | none => none
        else none
    | none => none
  else none

/-- First match of PARLE_COMPUESTO
`/(\d{2}(?:\s+\d{2})*)\s+con\s+(\d+(?:[.,]\d+)?)\s+p\s*(\d+(?:[.,]\d+)?)/i`,
returning (group1, montoFijo, montoParle). -/
def parleCompMatchGo : ℕ → Str → Option (Str × Str × Str)
  | 0, _ => none
  | _ + 1, [] => none
  | fuel + 1, c :: cs =>
    let s := c :: cs
    (match s with
     | a :: b :: rest =>
         if isDigitC a && isDigitC b then
           match numListThen parleCompTail (s.length + 1) 2 rest with
           | some (g1len, (g2, g3)) => some (s.take g1len, g2, g3)
           | none => none
         else none
     | _ => none).orElse (fun _ => parleCompMatchGo fuel cs)

def parleCompMatch (s : Str) : Option (Str × Str × Str) :=
  parleCompMatchGo (s.length + 1) s

/-- ParlePlugin.process: the detalles produced for one block text
(explicit, inline and compound branches in source order). -/
def parlePluginDetalles (cfg : Config) (text : Str) : List DetalleApuesta :=
  let monto := parleMonto cfg text
  let explicit := (parleExplicitMatches text).map
    (fun m => parleExplicitoDetalle m.1 m.2 monto text)
  let inlineDet :=
    match parleInlineMatch text with
    | some g =>
        if (parleExplicitMatches text).isEmpty then
          let m := (match parseFloatJs (replaceFirstComma g) with
                    | JsNum.num q => q
                    | JsNum.nan => 0)
          let numeros := baseExtractNumbers (parleInlineStrip text)
          if 2 ≤ numeros.length then
            [createDetalle TipoApuesta.parle numeros m text none
              { combinaciones := some (calculateCombinations numeros.length) }]
          else []
        else []
    | none => []
  let compDet :=
    match parleCompMatch text with
    | some (g1, g2, g3) =>
        let numeros := baseExtractNumbers g1
        let mf := parseFloatJs (replaceFirstComma g2)
        let mp := parseFloatJs (replaceFirstComma g3)
        (match mf with
         | JsNum.num q =>
             if !numeros.isEmpty then
               [createDetalle TipoApuesta.fijo numeros q text none {}]
             else []
         | JsNum.nan => []) ++
        (match mp with
         | JsNum.num q =>
             if 2 ≤ numeros.length then
               [createDetalle TipoApuesta.parle numeros q text none
                 { combinaciones := some (calculateCombinations numeros.length) }]
             else []
         | JsNum.nan => [])
    | none => []
  explicit ++ inlineDet ++ compDet

/-- Tail of APUESTA_PATTERNS.CANDADO after the number list:
`\s+con\s+(g2)(?:\s+y\s+(g3))?\s+candado\s+(?:con\s+)?(g4)`. -/
def candadoTail (rest : Str) : Option (Str × Option Str × Str) :=
  let w1 := (rest.takeWhile isJsWhite).length
  if 1 ≤ w1 then
    match matchLitCI ("con".toList) (rest.drop w1) with
    | some r1 =>
        let w2 := (r1.takeWhile isJsWhite).length
        if 1 ≤ w2 then
          match numGroupAt (r1.drop w2) with
          | some (g2, r2) =>
              let yRes : Option (Str × Str) :=
                let w3 := (r2.takeWhile isJsWhite).length
                if 1 ≤ w3 then
                  match r2.drop w3 with
                  | y :: r3 =>
                      if toLowerJs y = 'y' then
                        let w4 := (r3.takeWhile isJsWhite).length
                        if 1 ≤ w4 then
                          match numGroupAt (r3.drop w4) with
                          | some (g3, r4) => some (g3, r4)
                          | none => none
                        else none
                      else none
                  | [] => none
                else none
              let g3 := yRes.map (·.1)
              let r5 := (match yRes with
                         | some pr => pr.2
                         | none => r2)
              let w5 := (r5.takeWhile isJsWhite).length
              if 1 ≤ w5 then
                match matchLitCI ("candado".toList) (r5.drop w5) with
                | some r6 =>
                    let w6 := (r6.takeWhile isJsWhite).length
                    if 1 ≤ w6 then
                      let r7 := r6.drop w6
                      let afterCon :=
                        (match matchLitCI ("con".toList) r7 with
                         | some r8 =>
                             let w7 := (r8.takeWhile isJsWhite).length
                             if 1 ≤ w7 then some (r8.drop w7) else none
                         | none => none)
                      let r9 := afterCon.getD r7
                      match numGroupAt r9 with
                      | some (g4, _) => some (g2, g3, g4)
                      | none => none
                    else none
                | none => none
              else none
          | none => none
        else none
    | none => none
  else none

/-- First match of APUESTA_PATTERNS.CANDADO, returning the four groups. -/
def candadoMatchGo : ℕ → Str → Option (Str × Str × Option Str × Str)
  | 0, _ => none
  | _ + 1, [] => none
  | fuel + 1, c :: cs =>
    let s := c :: cs
    (match s with
     | a :: b :: rest =>
         if isDigitC a && isDigitC b then
           match numListThen candadoTail (s.length + 1) 2 rest with
           | some (g1len, t) => some (s.take g1len, t.1, t.2.1, t.2.2)
           | none => none
         else none
     | _ => none).orElse (fun _ => candadoMatchGo fuel cs)

def candadoMatch (s : Str) : Option (Str × Str × Option Str × Str) :=
  candadoMatchGo (s.length + 1) s

/-- The body of CandadoPlugin.process applied to the captured groups of
one CANDADO match. -/
def candadoDetallesOfMatch (numerosStr montoFijoStr : Str)
    (montoCorridoStr : Option Str) (montoCandadoStr : Str) (text : Str) :
    List DetalleApuesta :=
  let numeros := baseExtractNumbers numerosStr
  let montoFijo := parseFloatJs (replaceFirstComma montoFijoStr)
  let montoCorrido := montoCorridoStr.map (fun g => parseFloatJs (replaceFirstComma g))
  let montoCandado := parseFloatJs (replaceFirstComma montoCandadoStr)
  if 2 ≤ numeros.length then
    (match montoFijo with
     | JsNum.num q => [createDetalle TipoApuesta.fijo numeros q text none {}]
     | JsNum.nan => []) ++
    (match montoCorrido with
     | some (JsNum.num q) =>
         [createDetalle TipoApuesta.corrido numeros q text none {}]
     | _ => []) ++
    (let combinaciones := calculateCombinations numeros.length
     let montoUnitario :=
       (match montoCandado with
        | JsNum.num q =>
            if 0 < combinaciones then q / (combinaciones : ℚ) else 0
        | JsNum.nan => 0)
     let montoOverride :=
       (match montoCandado with
        | JsNum.num q => some q
        | JsNum.nan => none)
     [createDetalle TipoApuesta.candado numeros montoUnitario text none
       { monto := montoOverride, combinaciones := some combinaciones }])
  else []

/-- CandadoPlugin.process: the detalles produced for one block text. -/
def candadoPluginDetalles (text : Str) : List DetalleApuesta :=
  match candadoMatch text with
  | some (g1, g2, g3, g4) => candadoDetallesOfMatch g1 g2 g3 g4 text
  | none => []

/-! ## CacheManager (utils/cache.ts) -/

structure CacheConfig where
  enabled : Bool
  ttl : ℕ
  maxSize : ℕ
deriving DecidableEq, Repr

structure CacheEntry where
  value : ℕ
  timestamp : ℕ
  ttl : ℕ
  hits : ℕ
deriving DecidableEq, Repr

structure CacheStats where
  hits : ℕ
  misses : ℕ
  size : ℤ
  evictions : ℕ
deriving DecidableEq, Repr

structure CacheState where
  entries : List (Str × CacheEntry)
  stats : CacheStats
deriving DecidableEq, Repr

def initialCacheState : CacheState :=
  { entries := [], stats := { hits := 0, misses := 0, size := 0, evictions := 0 } }

def entriesLookup (key : Str) (es : List (Str × CacheEntry)) : Option CacheEntry :=
  match es.find? (fun p => p.1 = key) with
  | some p => some p.2
  | none => none

def entriesDelete (key : Str) (es : List (Str × CacheEntry)) :
    List (Str × CacheEntry) :=
  es.filter (fun p => p.1 ≠ key)

/-- `Map.set` keeps the position of an existing key and appends new keys. -/
def entriesUpsert (key : Str) (e : CacheEntry) :
    List (Str × CacheEntry) → List (Str × CacheEntry)
  | [] => [(key, e)]
  | p :: ps => if p.1 = key then (key, e) :: ps else p :: entriesUpsert key e ps

/-- CacheManager.get. -/
def cacheGet (cfg : CacheConfig) (now : ℕ) (key : Str) (st : CacheState) :
    CacheState :=
  if !cfg.enabled then st
  else
    match entriesLookup key st.entries with
    | none => { st with stats := { st.stats with misses := st.stats.misses + 1 } }
    | some e =>
        if e.timestamp + e.ttl < now then
          { entries := entriesDelete key st.entries
            stats :=
              { st.stats with
                  misses := st.stats.misses + 1
                  size := st.stats.size - 1 } }
        else
          { entries := entriesUpsert key { e with hits := e.hits + 1 } st.entries
            stats := { st.stats with hits := st.stats.hits + 1 } }

def cleanupExpired (now : ℕ) (st : CacheState) : CacheState :=
  let expired := st.entries.filter (fun p => p.2.timestamp + p.2.ttl < now)
  { entries := st.entries.filter (fun p => !(p.2.timestamp + p.2.ttl < now))
    stats := { st.stats with size := st.stats.size - expired.length } }

/-- CacheManager.evictLeastUsed: evicts the first entry (in insertion
order) with the strictly smallest hit count. -/
def leastUsedKey (es : List (Str × CacheEntry)) : Option Str :=
  (es.foldl
    (fun (acc : Option (Str × ℕ)) p =>
      match acc with
      | none => some (p.1, p.2.hits)
      | some (k, h) => if p.2.hits < h then some (p.1, p.2.hits) else some (k, h))
    none).map (·.1)

def evictLeastUsed (st : CacheState) : CacheState :=
  match leastUsedKey st.entries with
  | some k =>
      { entries := entriesDelete k st.entries
        stats :=
          { st.stats with
              evictions := st.stats.evictions + 1
              size := st.stats.size - 1 } }
  | none => st

/-- CacheManager.set (`ttl || this.config.ttl`: 0 is falsy). -/
def cacheSet (cfg : CacheConfig) (now : ℕ) (key : Str) (v : ℕ)
    (ttlArg : Option ℕ) (st : CacheState) : CacheState :=
  if !cfg.enabled then st
  else
    let st1 := cleanupExpired now st
    let st2 := if cfg.maxSize ≤ st1.entries.length then evictLeastUsed st1 else st1
    let ttlv := (match ttlArg with
                 | some t => if t = 0 then cfg.ttl else t
                 | none => cfg.ttl)
    let entries := entriesUpsert key
      { value := v, timestamp := now, ttl := ttlv, hits := 0 } st2.entries
    { entries := entries
      stats := { st2.stats with size := (entries.length : ℤ) } }

/-- CacheManager.getStats: the exposed hit rate is a percentage. -/
def cacheHitRate (st : CacheState) : ℚ :=
  if 0 < st.stats.hits + st.stats.misses then
    ((st.stats.hits : ℚ) / ((st.stats.hits : ℚ) + (st.stats.misses : ℚ))) * 100
  else 0

inductive CacheOp where
  | get (key : Str) (now : ℕ)
  | set (key : Str) (v : ℕ) (ttlArg : Option ℕ) (now : ℕ)
deriving DecidableEq, Repr

def runCacheOps (cfg : CacheConfig) (ops : List CacheOp) (st : CacheState) :
    CacheState :=
  ops.foldl
    (fun st op =>
      match op with
      | CacheOp.get key now => cacheGet cfg now key st
      | CacheOp.set key v ttlArg now => cacheSet cfg now key v ttlArg st)
    st

def countGets (ops : List CacheOp) : ℕ :=
  (ops.filter (fun op => match op with | CacheOp.get _ _ => true | _ => false)).length

/-! ## Theorems -/

unseal Rat.add Rat.mul Rat.inv Rat.sub

lemma computeIsValid_iff (T : ℚ) (D : Option JsNum) :
    computeIsValid T D = true ↔
      (D = none ∨ ∃ q : ℚ, D = some (JsNum.num q) ∧ |T - q| < 1/100) := by
  cases D with
  | none => simp [computeIsValid]
  | some jn =>
    cases jn with
    | nan => simp [computeIsValid]
    | num q => simp [computeIsValid]

/-- C5: a Jugada produced by the parser is valid exactly when the declared
total is absent or differs from the calculated total by less than 0.01;
this holds both for BasePlugin.createJugada and for
Parser.parseBloqueStandard. -/
theorem c5_is_valid_iff :
    (∀ (jugador : Str) (detalles : List DetalleApuesta) (td : Option JsNum)
      (lineas warnings errors : List Str),
      ((createJugada jugador detalles td lineas warnings errors).isValid = true ↔
        (td = none ∨ ∃ q : ℚ, td = some (JsNum.num q) ∧
          |sumMontos detalles - q| < 1/100))) ∧
    (∀ (cfg : Config) (jugador : Str) (lineas : List Str),
      ((parseBloqueStandard cfg jugador lineas).isValid = true ↔
        ((parseBloqueStandard cfg jugador lineas).totalDeclarado = none ∨
          ∃ q : ℚ, (parseBloqueStandard cfg jugador lineas).totalDeclarado =
            some (JsNum.num q) ∧
            |(parseBloqueStandard cfg jugador lineas).totalCalculado - q| < 1/100))) := by
  constructor
  · intro jugador detalles td lineas warnings errors
    simpa [createJugada] using computeIsValid_iff (sumMontos detalles) td
  · intro cfg jugador lineas
    simpa [parseBloqueStandard] using
      computeIsValid_iff (parseBloqueStandard cfg jugador lineas).totalCalculado
        (parseBloqueStandard cfg jugador lineas).totalDeclarado

/-- C8, amended: the segmenter's name-line classifier
(Validator.isNombreJugador) accepts a line exactly when the trimmed line
has length at least 2, does not start with a digit, contains no reserved
token, and has letter ratio above 0.6 — there is no upper length bound. -/
theorem c8_name_line_iff (line : Str) :
    validatorIsNombreJugador line = true ↔
      (2 ≤ (trimJs line).length ∧ headDigit (trimJs line) = false ∧
       containsReserved (trimJs line) = false ∧
       ((letterCount (trimJs line) : ℚ) / ((trimJs line).length : ℚ) > 6/10)) := by
  unfold validatorIsNombreJugador
  dsimp only
  split_ifs with h1 h2 h3
  · simp only [Bool.false_eq_true, false_iff]
    rintro ⟨hlen, -, -, -⟩
    omega
  · simp only [Bool.false_eq_true, false_iff]
    rintro ⟨-, hd, -, -⟩
    simp [h2] at hd
  · simp only [Bool.false_eq_true, false_iff]
    rintro ⟨-, -, hr, -⟩
    simp [h3] at hr
  · rw [decide_eq_true_iff]
    constructor
    · intro hq
      exact ⟨by omega, by simpa using h2, by simpa using h3, hq⟩
    · rintro ⟨-, -, -, hq⟩
      exact hq

/-- C8, counterexample: a 36-letter line is classified as a player name by
the segmenter's classifier even though the claimed length bound 2..35
excludes it — the claimed equivalence fails on this line. -/
theorem c8_counterexample :
    validatorIsNombreJugador (List.replicate 36 'a') = true ∧
    ¬((trimJs (List.replicate 36 'a')).length ≤ 35) := by decide

lemma mkParseResult_inv {jugadas : List Jugada} {summary : Summary}
    {origLen procLen : ℕ} {warnings errors : List Str} {stats : ParseStats} :
    (mkParseResult jugadas summary origLen procLen warnings errors stats).success =
      (mkParseResult jugadas summary origLen procLen warnings errors
        stats).metadata.errors.isEmpty := rfl

lemma parseBody_ok_inv (cfg : Config) (text : Str) (r : ParseResult)
    (h : parseBody cfg text = Except.ok r) :
    r.success = r.metadata.errors.isEmpty := by
  unfold parseBody at h
  dsimp only at h
  by_cases h1 :
      (!(validateSyntax cfg (preprocess cfg text)).valid && cfg.strictMode) = true
  · rw [if_pos h1] at h
    exact Except.noConfusion h
  · rw [if_neg h1] at h
    by_cases h2 :
        cfg.maxJugadores < (extractBloques (preprocess cfg text)).length
    · rw [if_pos h2] at h
      exact Except.noConfusion h
    · rw [if_neg h2] at h
      rw [Except.ok.injEq] at h
      subst h
      show (parseOk cfg text).success = (parseOk cfg text).metadata.errors.isEmpty
      unfold parseOk
      exact mkParseResult_inv

/-- C2: parse is a total function on its inputs, and a failed parse is
exactly one whose metadata carries error messages — the thrown-error
branch returns success=false with the message in metadata.errors, and the
success flag of the normal branch is defined as the emptiness of the
collected error list. -/
theorem c2_parse_failures_encoded (cfg : Config) (text : Str) :
    (parse cfg text).success = true ↔ (parse cfg text).metadata.errors = [] := by
  unfold parse
  cases h : parseBody cfg text with
  | ok r =>
      have hr := parseBody_ok_inv cfg text r h
      rw [hr]
      simp [List.isEmpty_iff]
  | error msg => simp

set_option maxRecDepth 8192

/-- C1: at the input "05 10 con 20" under the default configuration the
parser returns a single Jugada for player "Desconocido" with NO details
and total 0 — `Parser.parseLinea` is an empty stub and
`registerDefaultPlugins` registers nothing, so no Fijo detail with
amount 40 is ever produced. -/
theorem c1_simple_line_produces_no_details :
    (parse defaultConfig ("05 10 con 20".toList)).success = true ∧
    (parse defaultConfig ("05 10 con 20".toList)).jugadas.map (fun j => j.jugador) =
      [("Desconocido".toList)] ∧
    (parse defaultConfig ("05 10 con 20".toList)).jugadas.map (fun j => j.detalles) =
      [[]] ∧
    (parse defaultConfig ("05 10 con 20".toList)).jugadas.map
      (fun j => j.totalCalculado) = [0] ∧
    (parse defaultConfig ("05 10 con 20".toList)).jugadas.map (fun j => j.isValid) =
      [true] ∧
    (parse defaultConfig ("05 10 con 20".toList)).summary.totalCalculado = 0 := by
  decide

/-- C6: for the empty input under the default configuration parse returns
success=true with no errors in the metadata — the "Texto vacío" error is
produced by Validator.validateSyntax but dropped by Parser.parse unless
strict mode is on. -/
theorem c6_empty_input_parses_successfully :
    (parse defaultConfig ([] : Str)).success = true ∧
    (parse defaultConfig ([] : Str)).jugadas = [] ∧
    (parse defaultConfig ([] : Str)).metadata.errors = [] ∧
    (validateSyntax defaultConfig ([] : Str)).valid = false ∧
    (validateSyntax defaultConfig ([] : Str)).errors = [("Texto vacío".toList)] := by
  decide

/-- C7: preprocessing is not idempotent.  Stripping the isolated currency
symbol in "1 $ 2" leaves a double space, which only a second application
of the pipeline collapses. -/
theorem c7_preprocess_not_idempotent :
    preprocess defaultConfig ("1 $ 2".toList) = ("1  2".toList) ∧
    preprocess defaultConfig (preprocess defaultConfig ("1 $ 2".toList)) =
      ("1 2".toList) ∧
    preprocess defaultConfig (preprocess defaultConfig ("1 $ 2".toList)) ≠
      preprocess defaultConfig ("1 $ 2".toList) := by
  decide

/-- C3, counterexample: ParlePlugin.process on "25*33 parle con 5" emits a
single Parle detail with pairs [(25,33)], combinations 1 and unit amount
5, but its amount is 10 = 2 × 5 (BasePlugin.createDetalle multiplies the
unit amount by the two numbers of the pair), not 5 as claimed. -/
theorem c3_counterexample :
    (parlePluginDetalles defaultConfig ("25*33 parle con 5".toList)).map
      (fun d => d.tipo) = [TipoApuesta.parle] ∧
    (parlePluginDetalles defaultConfig ("25*33 parle con 5".toList)).map
      (fun d => d.pares) = [some [(("25".toList : Str), ("33".toList : Str))]] ∧
    (parlePluginDetalles defaultConfig ("25*33 parle con 5".toList)).map
      (fun d => d.combinaciones) = [some 1] ∧
    (parlePluginDetalles defaultConfig ("25*33 parle con 5".toList)).map
      (fun d => d.montoUnitario) = [5] ∧
    (parlePluginDetalles defaultConfig ("25*33 parle con 5".toList)).map
      (fun d => d.monto) = [10] ∧
    ((10 : ℚ) = 5 → False) := by
  decide

/-- C9, counterexample: after one set and one hit the exposed hit rate is
100 (a percentage), not hits/(hits+misses) = 1. -/
theorem c9_counterexample :
    (runCacheOps { enabled := true, ttl := 1000, maxSize := 10 }
        [CacheOp.set ("k".toList) 0 none 0, CacheOp.get ("k".toList) 1]
        initialCacheState).stats.hits = 1 ∧
    (runCacheOps { enabled := true, ttl := 1000, maxSize := 10 }
        [CacheOp.set ("k".toList) 0 none 0, CacheOp.get ("k".toList) 1]
        initialCacheState).stats.misses = 0 ∧
    cacheHitRate (runCacheOps { enabled := true, ttl := 1000, maxSize := 10 }
        [CacheOp.set ("k".toList) 0 none 0, CacheOp.get ("k".toList) 1]
        initialCacheState) = 100 ∧
    cacheHitRate (runCacheOps { enabled := true, ttl := 1000, maxSize := 10 }
        [CacheOp.set ("k".toList) 0 none 0, CacheOp.get ("k".toList) 1]
        initialCacheState) ≠ 1 / (1 + 0) := by
  decide

/-- C3, amended: every detail emitted by the explicit-parle branch of
ParlePlugin.process carries exactly one pair (and those two padded numbers
as its numbers), combinations = 1, the `parle con` stake as unit amount —
and its amount is 2 × unit_amount, since BasePlugin.createDetalle computes
`numeros.length * montoUnitario` and the extras do not override it. -/
theorem c3_explicit_parle_amounts (cfg : Config) (line : Str)
    (d : DetalleApuesta)
    (hd : d ∈ (parleExplicitMatches line).map
      (fun m => parleExplicitoDetalle m.1 m.2 (parleMonto cfg line) line)) :
    (∃ a b : Str, d.pares = some [(a, b)] ∧ d.numeros = [a, b]) ∧
    d.combinaciones = some 1 ∧
    d.montoUnitario = parleMonto cfg line ∧
    d.monto = 2 * parleMonto cfg line := by
  rcases List.mem_map.mp hd with ⟨m, -, rfl⟩
  refine ⟨⟨padStart2 m.1, padStart2 m.2, rfl, rfl⟩, rfl, rfl, ?_⟩
  show (Option.none).getD
      ((([padStart2 m.1, padStart2 m.2] : List Str).length : ℚ) *
        parleMonto cfg line) = 2 * parleMonto cfg line
  norm_num

/-- C3, witness: the amended statement instantiated at the explicit parle
line "25*33 parle con 5". -/
theorem c3_explicit_parle_amounts_witness :
    (parleExplicitoDetalle ("25".toList) ("33".toList)
        (parleMonto defaultConfig ("25*33 parle con 5".toList))
        ("25*33 parle con 5".toList)) ∈
      (parleExplicitMatches ("25*33 parle con 5".toList)).map
        (fun m => parleExplicitoDetalle m.1 m.2
          (parleMonto defaultConfig ("25*33 parle con 5".toList))
          ("25*33 parle con 5".toList)) ∧
    ((∃ a b : Str,
        (parleExplicitoDetalle ("25".toList) ("33".toList)
          (parleMonto defaultConfig ("25*33 parle con 5".toList))
          ("25*33 parle con 5".toList)).pares = some [(a, b)] ∧
        (parleExplicitoDetalle ("25".toList) ("33".toList)
          (parleMonto defaultConfig ("25*33 parle con 5".toList))
          ("25*33 parle con 5".toList)).numeros = [a, b]) ∧
      (parleExplicitoDetalle ("25".toList) ("33".toList)
        (parleMonto defaultConfig ("25*33 parle con 5".toList))
        ("25*33 parle con 5".toList)).combinaciones = some 1 ∧
      (parleExplicitoDetalle ("25".toList) ("33".toList)
        (parleMonto defaultConfig ("25*33 parle con 5".toList))
        ("25*33 parle con 5".toList)).montoUnitario =
          parleMonto defaultConfig ("25*33 parle con 5".toList) ∧
      (parleExplicitoDetalle ("25".toList) ("33".toList)
        (parleMonto defaultConfig ("25*33 parle con 5".toList))
        ("25*33 parle con 5".toList)).monto =
          2 * parleMonto defaultConfig ("25*33 parle con 5".toList)) :=
  ⟨by decide,
   c3_explicit_parle_amounts defaultConfig ("25*33 parle con 5".toList) _
     (by decide)⟩

lemma calculateCombinations_eq {n : ℕ} (h : 2 ≤ n) :
    calculateCombinations n = n * (n - 1) / 2 := by
  unfold calculateCombinations
  rw [if_neg (by omega)]

lemma calculateCombinations_pos {n : ℕ} (h : 2 ≤ n) :
    0 < calculateCombinations n := by
  rw [calculateCombinations_eq h]
  have h2 : 2 ≤ n * (n - 1) := by
    calc 2 = 2 * 1 := by norm_num
    _ ≤ n * (n - 1) := Nat.mul_le_mul h (by omega)
  exact Nat.div_pos h2 (by norm_num)

/-- C4: the Candado detail produced from a CANDADO match with n ≥ 2 base
numbers and total amount `total_candado` has combinations = n(n−1)/2,
unit_amount = total_candado / combinations, and amount = total_candado —
the extras spread in BasePlugin.createDetalle overrides the computed
amount with the user total. -/
theorem c4_candado_detail (numerosStr montoFijoStr : Str)
    (montoCorridoStr : Option Str) (montoCandadoStr text : Str) (mc : ℚ)
    (hmc : parseFloatJs (replaceFirstComma montoCandadoStr) = JsNum.num mc)
    (hn : 2 ≤ (baseExtractNumbers numerosStr).length) :
    ∃ d : DetalleApuesta,
      (candadoDetallesOfMatch numerosStr montoFijoStr montoCorridoStr
        montoCandadoStr text).getLast? = some d ∧
      d.tipo = TipoApuesta.candado ∧
      d.combinaciones = some ((baseExtractNumbers numerosStr).length *
        ((baseExtractNumbers numerosStr).length - 1) / 2) ∧
      d.montoUnitario = mc / (((baseExtractNumbers numerosStr).length *
        ((baseExtractNumbers numerosStr).length - 1) / 2 : ℕ) : ℚ) ∧
      d.monto = mc := by
  unfold candadoDetallesOfMatch
  rw [if_pos hn, hmc]
  dsimp only
  rw [if_pos (calculateCombinations_pos hn)]
  refine ⟨_, List.getLast?_concat _, rfl, ?_, ?_, rfl⟩
  · show some (calculateCombinations (baseExtractNumbers numerosStr).length) = _
    rw [calculateCombinations_eq hn]
  · show mc / ((calculateCombinations (baseExtractNumbers numerosStr).length : ℕ) : ℚ) = _
    rw [calculateCombinations_eq hn]

/-- C4, witness: the candado fixture "26 78 98 45 con 1 y 3 candado con
50" — four base numbers, six combinations, unit 50/6, amount 50. -/
theorem c4_candado_detail_witness :
    parseFloatJs (replaceFirstComma ("50".toList)) = JsNum.num 50 ∧
    2 ≤ (baseExtractNumbers ("26 78 98 45".toList)).length ∧
    (∃ d : DetalleApuesta,
      (candadoDetallesOfMatch ("26 78 98 45".toList) ("1".toList)
        (some ("3".toList)) ("50".toList)
        ("26 78 98 45 con 1 y 3 candado con 50".toList)).getLast? = some d ∧
      d.tipo = TipoApuesta.candado ∧
      d.combinaciones = some ((baseExtractNumbers ("26 78 98 45".toList)).length *
        ((baseExtractNumbers ("26 78 98 45".toList)).length - 1) / 2) ∧
      d.montoUnitario = 50 / (((baseExtractNumbers ("26 78 98 45".toList)).length *
        ((baseExtractNumbers ("26 78 98 45".toList)).length - 1) / 2 : ℕ) : ℚ) ∧
      d.monto = 50) :=
  ⟨by decide, by decide,
   c4_candado_detail ("26 78 98 45".toList) ("1".toList) (some ("3".toList))
     ("50".toList) ("26 78 98 45 con 1 y 3 candado con 50".toList) 50
     (by decide) (by decide)⟩

lemma cacheGet_counts (cfg : CacheConfig) (now : ℕ) (key : Str)
    (st : CacheState) (h : cfg.enabled = true) :
    (cacheGet cfg now key st).stats.hits + (cacheGet cfg now key st).stats.misses =
      st.stats.hits + st.stats.misses + 1 := by
  unfold cacheGet
  rw [h]
  simp only [Bool.not_true, Bool.false_eq_true, if_false]
  cases entriesLookup key st.entries with
  | none => dsimp only; omega
  | some e =>
      dsimp only
      split_ifs <;> dsimp only <;> omega

lemma cacheSet_counts (cfg : CacheConfig) (now : ℕ) (key : Str) (v : ℕ)
    (ttlArg : Option ℕ) (st : CacheState) :
    (cacheSet cfg now key v ttlArg st).stats.hits = st.stats.hits ∧
    (cacheSet cfg now key v ttlArg st).stats.misses = st.stats.misses := by
  unfold cacheSet cleanupExpired evictLeastUsed
  split_ifs <;>
    first
      | exact ⟨rfl, rfl⟩
      | (dsimp only
         split_ifs <;>
           first
             | exact ⟨rfl, rfl⟩
             | (cases hk : leastUsedKey
                  ((st.entries.filter
                    (fun p => !(p.2.timestamp + p.2.ttl < now)))) <;>
                simp [hk]))

lemma countGets_get (k : Str) (n : ℕ) (ops : List CacheOp) :
    countGets (CacheOp.get k n :: ops) = countGets ops + 1 := by
  simp [countGets, List.filter_cons]

lemma countGets_set (k : Str) (v : ℕ) (t : Option ℕ) (n : ℕ)
    (ops : List CacheOp) :
    countGets (CacheOp.set k v t n :: ops) = countGets ops := by
  simp [countGets, List.filter_cons]

lemma runCacheOps_counts (cfg : CacheConfig) (h : cfg.enabled = true)
    (ops : List CacheOp) :
    ∀ st : CacheState,
      (runCacheOps cfg ops st).stats.hits + (runCacheOps cfg ops st).stats.misses =
        st.stats.hits + st.stats.misses + countGets ops := by
  induction ops with
  | nil => intro st; simp [runCacheOps, countGets]
  | cons op ops ih =>
      intro st
      cases op with
      | get key now =>
          have hstep := cacheGet_counts cfg now key st h
          have hrest := ih (cacheGet cfg now key st)
          simp only [runCacheOps, List.foldl_cons] at hrest ⊢
          rw [hrest, hstep, countGets_get]
          omega
      | set key v ttlArg now =>
          have hstep := cacheSet_counts cfg now key v ttlArg st
          have hrest := ih (cacheSet cfg now key v ttlArg st)
          simp only [runCacheOps, List.foldl_cons] at hrest ⊢
          rw [hrest, hstep.1, hstep.2, countGets_set]

/-- C9, amended: the cache's exposed hit_rate is a percentage — over any
sequence of get/set operations on an enabled cache, hits + misses equals
the number of gets performed, the hit rate is 0 when no get has been
performed, and otherwise equals 100 × hits / (hits + misses). -/
theorem c9_hit_rate_percentage (cfg : CacheConfig) (ops : List CacheOp)
    (h : cfg.enabled = true) :
    (runCacheOps cfg ops initialCacheState).stats.hits +
      (runCacheOps cfg ops initialCacheState).stats.misses = countGets ops ∧
    (countGets ops = 0 → cacheHitRate (runCacheOps cfg ops initialCacheState) = 0) ∧
    (0 < countGets ops →
      cacheHitRate (runCacheOps cfg ops initialCacheState) =
        100 * ((runCacheOps cfg ops initialCacheState).stats.hits : ℚ) /
          (countGets ops : ℚ)) := by
  have hc := runCacheOps_counts cfg h ops initialCacheState
  rw [show initialCacheState.stats.hits = 0 from rfl,
      show initialCacheState.stats.misses = 0 from rfl] at hc
  refine ⟨by omega, ?_, ?_⟩
  · intro h0
    unfold cacheHitRate
    rw [if_neg (by omega)]
  · intro hpos
    unfold cacheHitRate
    rw [if_pos (by omega)]
    have hm : ((runCacheOps cfg ops initialCacheState).stats.hits : ℚ) +
        ((runCacheOps cfg ops initialCacheState).stats.misses : ℚ) =
        (countGets ops : ℚ) := by
      have hc2 : (runCacheOps cfg ops initialCacheState).stats.hits +
          (runCacheOps cfg ops initialCacheState).stats.misses = countGets ops := by
        omega
      exact_mod_cast hc2
    rw [hm]
    ring

/-- C9, witness: the amended statement at a concrete one-set one-get run. -/
theorem c9_hit_rate_percentage_witness :
    ({ enabled := true, ttl := 1000, maxSize := 10 } : CacheConfig).enabled = true ∧
    ((runCacheOps { enabled := true, ttl := 1000, maxSize := 10 }
        [CacheOp.set ("k".toList) 0 none 0, CacheOp.get ("k".toList) 1]
        initialCacheState).stats.hits +
      (runCacheOps { enabled := true, ttl := 1000, maxSize := 10 }
        [CacheOp.set ("k".toList) 0 none 0, CacheOp.get ("k".toList) 1]
        initialCacheState).stats.misses =
        countGets [CacheOp.set ("k".toList) 0 none 0, CacheOp.get ("k".toList) 1] ∧
    (countGets [CacheOp.set ("k".toList) 0 none 0, CacheOp.get ("k".toList) 1] = 0 →
      cacheHitRate (runCacheOps { enabled := true, ttl := 1000, maxSize := 10 }
        [CacheOp.set ("k".toList) 0 none 0, CacheOp.get ("k".toList) 1]
        initialCacheState) = 0) ∧
    (0 < countGets [CacheOp.set ("k".toList) 0 none 0, CacheOp.get ("k".toList) 1] →
      cacheHitRate (runCacheOps { enabled := true, ttl := 1000, maxSize := 10 }
        [CacheOp.set ("k".toList) 0 none 0, CacheOp.get ("k".toList) 1]
        initialCacheState) =
        100 * ((runCacheOps { enabled := true, ttl := 1000, maxSize := 10 }
          [CacheOp.set ("k".toList) 0 none 0, CacheOp.get ("k".toList) 1]
          initialCacheState).stats.hits : ℚ) /
          (countGets [CacheOp.set ("k".toList) 0 none 0,
            CacheOp.get ("k".toList) 1] : ℚ))) :=
  ⟨rfl, c9_hit_rate_percentage { enabled := true, ttl := 1000, maxSize := 10 }
    [CacheOp.set ("k".toList) 0 none 0, CacheOp.get ("k".toList) 1] rfl⟩

lemma takeWhile_append_all (p : Char → Bool) (t : Str) (x : Char) (r : Str)
    (ht : ∀ c ∈ t, p c = true) (hx : p x = false) :
    (t ++ x :: r).takeWhile p = t := by
  induction t with
  | nil => simp [List.takeWhile_cons, hx]
  | cons c cs ih =>
      have hc := ht c (List.mem_cons_self c cs)
      simp [List.takeWhile_cons, hc,
        ih (fun d hd => ht d (List.mem_cons_of_mem c hd))]

lemma takeWhile_all_eq (p : Char → Bool) (t : Str)
    (ht : ∀ c ∈ t, p c = true) : t.takeWhile p = t := by
  induction t with
  | nil => rfl
  | cons c cs ih =>
      have hc := ht c (List.mem_cons_self c cs)
      simp [List.takeWhile_cons, hc,
        ih (fun d hd => ht d (List.mem_cons_of_mem c hd))]

lemma matches14Go_nil (fuel : ℕ) : matches14Go fuel [] = [] := by
  cases fuel <;> rfl

lemma matches14Go_cons_digit (fuel : ℕ) (c : Char) (cs : Str)
    (hc : isDigitC c = true) :
    matches14Go (fuel + 1) (c :: cs) =
      (((c :: cs).takeWhile isDigitC).take 4) ::
        matches14Go fuel
          ((c :: cs).drop (((c :: cs).takeWhile isDigitC).take 4).length) := by
  conv_lhs => unfold matches14Go
  rw [if_pos hc]

lemma matches14Go_cons_nondigit (fuel : ℕ) (c : Char) (cs : Str)
    (hc : isDigitC c = false) :
    matches14Go (fuel + 1) (c :: cs) = matches14Go fuel cs := by
  conv_lhs => unfold matches14Go
  rw [if_neg (by simp [hc])]

lemma matches14Go_token (fuel : ℕ) (t rest : Str) (h1 : t ≠ [])
    (h4 : t.length ≤ 4) (ht : ∀ c ∈ t, isDigitC c = true) :
    matches14Go (fuel + 2) (t ++ ' ' :: rest) = t :: matches14Go fuel rest := by
  cases t with
  | nil => exact absurd rfl h1
  | cons c cs =>
      have hc := ht c (List.mem_cons_self c cs)
      have htw : (c :: (cs ++ ' ' :: rest)).takeWhile isDigitC = c :: cs := by
        rw [← List.cons_append]
        exact takeWhile_append_all isDigitC (c :: cs) ' ' rest ht (by decide)
      have htake : ((c :: (cs ++ ' ' :: rest)).takeWhile isDigitC).take 4 =
          c :: cs := by
        rw [htw, List.take_of_length_le h4]
      have hdrop : (c :: (cs ++ ' ' :: rest)).drop ((c :: cs).length) =
          ' ' :: rest := by
        rw [← List.cons_append]
        exact List.drop_left (c :: cs) (' ' :: rest)
      rw [List.cons_append, matches14Go_cons_digit (fuel + 1) c _ hc, htake,
        hdrop, matches14Go_cons_nondigit fuel ' ' rest (by decide)]

lemma matches14Go_last (fuel : ℕ) (t : Str) (h1 : t ≠ [])
    (h4 : t.length ≤ 4) (ht : ∀ c ∈ t, isDigitC c = true) :
    matches14Go (fuel + 1) t = [t] := by
  cases t with
  | nil => exact absurd rfl h1
  | cons c cs =>
      have hc := ht c (List.mem_cons_self c cs)
      have htw : (c :: cs).takeWhile isDigitC = c :: cs :=
        takeWhile_all_eq isDigitC (c :: cs) ht
      rw [matches14Go_cons_digit fuel c cs hc, htw, List.take_of_length_le h4,
        List.drop_length, matches14Go_nil]

lemma joinSpace_nil : joinSpace ([] : List Str) = [] := rfl

lemma joinSpace_single (t : Str) : joinSpace [t] = t := by
  simp [joinSpace]

lemma joinSpace_cons_cons (t u : Str) (ts : List Str) :
    joinSpace (t :: u :: ts) = t ++ ' ' :: joinSpace (u :: ts) := by
  simp [joinSpace, List.intersperse_cons_cons]

lemma matches14Go_tokens (ts : List Str)
    (htok : ∀ t ∈ ts, t ≠ [] ∧ t.length ≤ 4 ∧ (∀ c ∈ t, isDigitC c = true)) :
    ∀ fuel : ℕ, (joinSpace ts).length < fuel →
      matches14Go fuel (joinSpace ts) = ts := by
  induction ts with
  | nil => intro fuel _; rw [joinSpace_nil, matches14Go_nil]
  | cons t ts ih =>
      intro fuel hfuel
      rcases htok t (List.mem_cons_self t ts) with ⟨h1, h4, ht⟩
      have hpos : 1 ≤ t.length := List.length_pos.mpr h1
      cases ts with
      | nil =>
          rw [joinSpace_single] at hfuel ⊢
          obtain ⟨k, rfl⟩ : ∃ k, fuel = k + 1 := ⟨fuel - 1, by omega⟩
          exact matches14Go_last k t h1 h4 ht
      | cons u ts' =>
          rw [joinSpace_cons_cons] at hfuel ⊢
          have hlen : (t ++ ' ' :: joinSpace (u :: ts')).length =
              t.length + ((joinSpace (u :: ts')).length + 1) := by
            simp
          obtain ⟨k, rfl⟩ : ∃ k, fuel = k + 2 := ⟨fuel - 2, by omega⟩
          rw [matches14Go_token k t (joinSpace (u :: ts')) h1 h4 ht]
          rw [ih (fun s hs => htok s (List.mem_cons_of_mem t hs)) k (by omega)]

lemma matchesB14Go_nil (fuel : ℕ) (prevW : Bool) :
    matchesB14Go fuel prevW [] = [] := by
  cases fuel <;> rfl

lemma matchesB14Go_cons_digit (fuel : ℕ) (prevW : Bool) (c : Char) (cs : Str)
    (hc : isDigitC c = true) :
    matchesB14Go (fuel + 1) prevW (c :: cs) =
      (if (!prevW && decide (((c :: cs).takeWhile isDigitC).length ≤ 4) &&
          (match (c :: cs).drop ((c :: cs).takeWhile isDigitC).length with
           | [] => true
           | d :: _ => !isWordC d)) = true
       then [(c :: cs).takeWhile isDigitC] else []) ++
        matchesB14Go fuel true
          ((c :: cs).drop ((c :: cs).takeWhile isDigitC).length) := by
  conv_lhs => unfold matchesB14Go
  rw [if_pos hc]

lemma matchesB14Go_cons_nondigit (fuel : ℕ) (prevW : Bool) (c : Char)
    (cs : Str) (hc : isDigitC c = false) :
    matchesB14Go (fuel + 1) prevW (c :: cs) = matchesB14Go fuel (isWordC c) cs := by
  conv_lhs => unfold matchesB14Go
  rw [if_neg (by simp [hc])]

lemma matchesB14Go_token (fuel : ℕ) (t rest : Str) (h1 : t ≠ [])
    (h4 : t.length ≤ 4) (ht : ∀ c ∈ t, isDigitC c = true) :
    matchesB14Go (fuel + 2) false (t ++ ' ' :: rest) =
      t :: matchesB14Go fuel false rest := by
  cases t with
  | nil => exact absurd rfl h1
  | cons c cs =>
      have hc := ht c (List.mem_cons_self c cs)
      have htw : (c :: (cs ++ ' ' :: rest)).takeWhile isDigitC = c :: cs := by
        rw [← List.cons_append]
        exact takeWhile_append_all isDigitC (c :: cs) ' ' rest ht (by decide)
      have hdrop : (c :: (cs ++ ' ' :: rest)).drop ((c :: cs).length) =
          ' ' :: rest := by
        rw [← List.cons_append]
        exact List.drop_left (c :: cs) (' ' :: rest)
      rw [List.cons_append, matchesB14Go_cons_digit (fuel + 1) false c _ hc,
        htw, hdrop]
      rw [if_pos (by
        simp only [Bool.not_false, Bool.true_and, Bool.and_eq_true,
          decide_eq_true_eq]
        exact ⟨h4, by decide⟩)]
      rw [matchesB14Go_cons_nondigit fuel true ' ' rest (by decide)]
      have hw : isWordC ' ' = false := by decide
      rw [hw]
      rfl

lemma matchesB14Go_last (fuel : ℕ) (t : Str) (h1 : t ≠ [])
    (h4 : t.length ≤ 4) (ht : ∀ c ∈ t, isDigitC c = true) :
    matchesB14Go (fuel + 1) false t = [t] := by
  cases t with
  | nil => exact absurd rfl h1
  | cons c cs =>
      have hc := ht c (List.mem_cons_self c cs)
      have htw : (c :: cs).takeWhile isDigitC = c :: cs :=
        takeWhile_all_eq isDigitC (c :: cs) ht
      rw [matchesB14Go_cons_digit fuel false c cs hc, htw, List.drop_length]
      rw [if_pos (by
        simp only [Bool.not_false, Bool.true_and, Bool.and_eq_true,
          decide_eq_true_eq]
        exact ⟨h4, trivial⟩)]
      rw [matchesB14Go_nil, List.append_nil]

lemma matchesB14Go_tokens (ts : List Str)
    (htok : ∀ t ∈ ts, t ≠ [] ∧ t.length ≤ 4 ∧ (∀ c ∈ t, isDigitC c = true)) :
    ∀ fuel : ℕ, (joinSpace ts).length < fuel →
      matchesB14Go fuel false (joinSpace ts) = ts := by
  induction ts with
  | nil => intro fuel _; rw [joinSpace_nil, matchesB14Go_nil]
  | cons t ts ih =>
      intro fuel hfuel
      rcases htok t (List.mem_cons_self t ts) with ⟨h1, h4, ht⟩
      have hpos : 1 ≤ t.length := List.length_pos.mpr h1
      cases ts with
      | nil =>
          rw [joinSpace_single] at hfuel ⊢
          obtain ⟨k, rfl⟩ : ∃ k, fuel = k + 1 := ⟨fuel - 1, by omega⟩
          exact matchesB14Go_last k t h1 h4 ht
      | cons u ts' =>
          rw [joinSpace_cons_cons] at hfuel ⊢
          have hlen : (t ++ ' ' :: joinSpace (u :: ts')).length =
              t.length + ((joinSpace (u :: ts')).length + 1) := by
            simp
          obtain ⟨k, rfl⟩ : ∃ k, fuel = k + 2 := ⟨fuel - 2, by omega⟩
          rw [matchesB14Go_token k t (joinSpace (u :: ts')) h1 h4 ht]
          rw [ih (fun s hs => htok s (List.mem_cons_of_mem t hs)) k (by omega)]

lemma numContrib_mem (m x : Str) (hx : x ∈ numContrib m) :
    x.length = 2 ∨ x.length = 3 := by
  unfold numContrib at hx
  split_ifs at hx with h2 h3 h4
  · rcases List.mem_singleton.mp hx with rfl
    exact Or.inl h2
  · rcases List.mem_singleton.mp hx with rfl
    exact Or.inr h3
  · rcases List.mem_cons.mp hx with rfl | hx2
    · left
      rw [List.length_take]
      omega
    · rcases List.mem_singleton.mp hx2 with rfl
      left
      rw [List.length_drop]
      omega
  · exact absurd hx (List.not_mem_nil x)

lemma numContrib_eq_claim (t : Str) (h1 : 1 ≤ t.length) (h4 : t.length ≤ 4) :
    numContrib t = claimNumContrib t := by
  rcases (by omega : t.length = 1 ∨ t.length = 2 ∨ t.length = 3 ∨
      t.length = 4) with h | h | h | h <;>
    simp [numContrib, claimNumContrib, h]

lemma flatMap_congr_mem (l : List Str) (f g : Str → List Str)
    (h : ∀ a ∈ l, f a = g a) : l.flatMap f = l.flatMap g := by
  induction l with
  | nil => rfl
  | cons a l ih =>
      rw [List.flatMap_cons, List.flatMap_cons, h a (List.mem_cons_self a l),
        ih (fun b hb => h b (List.mem_cons_of_mem a hb))]

/-- C10: both number extractors (Preprocessor.extractNumbers and
BasePlugin.extractNumbers) return only strings of length 2 or 3, for every
input; and on any whitespace-joined list of digit tokens of length 1–4,
both return exactly the claim's per-token expansion: 1-digit tokens are
silently discarded and 4-digit tokens are split into their first two and
last two digits, in order. -/
theorem c10_extractors_only_two_or_three :
    (∀ s : Str, ∀ x ∈ preprocExtractNumbers s, x.length = 2 ∨ x.length = 3) ∧
    (∀ s : Str, ∀ x ∈ baseExtractNumbers s, x.length = 2 ∨ x.length = 3) ∧
    (∀ ts : List Str,
      (∀ t ∈ ts, 1 ≤ t.length ∧ t.length ≤ 4 ∧ ∀ c ∈ t, isDigitC c = true) →
      preprocExtractNumbers (joinSpace ts) = ts.flatMap claimNumContrib ∧
      baseExtractNumbers (joinSpace ts) = ts.flatMap claimNumContrib) := by
  refine ⟨?_, ?_, ?_⟩
  · intro s x hx
    rw [preprocExtractNumbers, List.mem_flatMap] at hx
    obtain ⟨m, _, hxm⟩ := hx
    exact numContrib_mem m x hxm
  · intro s x hx
    rw [baseExtractNumbers, List.mem_flatMap] at hx
    obtain ⟨m, _, hxm⟩ := hx
    exact numContrib_mem m x hxm
  · intro ts hts
    have htok : ∀ t ∈ ts, t ≠ [] ∧ t.length ≤ 4 ∧
        (∀ c ∈ t, isDigitC c = true) := by
      intro t ht
      rcases hts t ht with ⟨ha, hb, hc⟩
      exact ⟨List.length_pos.mp (by omega), hb, hc⟩
    have hcongr : ts.flatMap numContrib = ts.flatMap claimNumContrib := by
      refine flatMap_congr_mem ts _ _ (fun t ht => ?_)
      rcases hts t ht with ⟨ha, hb, _⟩
      exact numContrib_eq_claim t ha hb
    constructor
    · rw [preprocExtractNumbers, matches14,
        matches14Go_tokens ts htok _ (Nat.lt_succ_self _), hcongr]
    · rw [baseExtractNumbers, matchesB14,
        matchesB14Go_tokens ts htok _ (Nat.lt_succ_self _), hcongr]

/-- Witness for C10: at the concrete input "5 1234 07" the extractors drop
the 1-digit token, split the 4-digit token and keep the 2-digit token. -/
theorem c10_extractors_only_two_or_three_witness :
    preprocExtractNumbers (joinSpace [("5".toList), ("1234".toList),
        ("07".toList)]) = [("12".toList), ("34".toList), ("07".toList)] ∧
    baseExtractNumbers (joinSpace [("5".toList), ("1234".toList),
        ("07".toList)]) = [("12".toList), ("34".toList), ("07".toList)] := by
  have h := c10_extractors_only_two_or_three.2.2
    [("5".toList), ("1234".toList), ("07".toList)] (by decide)
  exact ⟨h.1.trans (by decide), h.2.trans (by decide)⟩
